import Mathlib

/-!
Verification of the sawtooth-bond state projector against its specification.

The development shallowly embeds the three source modules:

* src/common/src/addressing.rs — address derivation and classification
  (SHA-256 is the digest used by the source through rust-crypto; it is
  implemented here in full, FIPS 180-4, so that concrete addresses evaluate);
* src/database/src/data_manager.rs — the versioned ledger store: the
  `DataManager` connection state becomes an explicit `Db` value threaded
  through each method;
* src/subscriber/src/event_handler.rs — the state-change interpreter.

Machine integers (`i64`) become `Int`; the store's methods perform no
arithmetic on them, only comparisons and assignment, so no wrap-around
modelling is needed.  Fallible code returns `Except`/`Option`.
-/

set_option maxRecDepth 8000

namespace SawtoothBond

namespace Sha256

/-- The 64 SHA-256 round constants (FIPS 180-4, section 4.2.2), written in
decimal. -/
def K : List Nat :=
  [1116352408, 1899447441, 3049323471, 3921009573, 961987163,
   1508970993, 2453635748, 2870763221, 3624381080, 310598401,
   607225278, 1426881987, 1925078388, 2162078206, 2614888103,
   3248222580, 3835390401, 4022224774, 264347078, 604807628,
   770255983, 1249150122, 1555081692, 1996064986, 2554220882,
   2821834349, 2952996808, 3210313671, 3336571891, 3584528711,
   113926993, 338241895, 666307205, 773529912, 1294757372,
   1396182291, 1695183700, 1986661051, 2177026350, 2456956037,
   2730485921, 2820302411, 3259730800, 3345764771, 3516065817,
   3600352804, 4094571909, 275423344, 430227734, 506948616,
   659060556, 883997877, 958139571, 1322822218, 1537002063,
   1747873779, 1955562222, 2024104815, 2227730452, 2361852424,
   2428436474, 2756734187, 3204031479, 3329325298]

/-- Right rotation of a 32-bit word held in a `Nat`. -/
def rotr (n w : Nat) : Nat := ((w >>> n) ||| (w <<< (32 - n))) % 2 ^ 32

def smallSigma0 (w : Nat) : Nat := (rotr 7 w) ^^^ (rotr 18 w) ^^^ (w >>> 3)

def smallSigma1 (w : Nat) : Nat := (rotr 17 w) ^^^ (rotr 19 w) ^^^ (w >>> 10)

def bigSigma0 (w : Nat) : Nat := (rotr 2 w) ^^^ (rotr 13 w) ^^^ (rotr 22 w)

def bigSigma1 (w : Nat) : Nat := (rotr 6 w) ^^^ (rotr 11 w) ^^^ (rotr 25 w)

def ch (x y z : Nat) : Nat := (x &&& y) ^^^ ((x ^^^ 0xffffffff) &&& z)

def maj (x y z : Nat) : Nat := (x &&& y) ^^^ (x &&& z) ^^^ (y &&& z)

/-- Padding: append 0x80, zero bytes to 56 mod 64, then the 64-bit big-endian
bit length of the message. -/
def padBytes (msg : List Nat) : List Nat :=
  let L := msg.length
  let zeros := (120 - ((L + 1) % 64)) % 64
  msg ++ [0x80] ++ List.replicate zeros 0 ++
    (List.range 8).map (fun i => ((L * 8) >>> (56 - 8 * i)) % 256)

/-- Pack bytes into 32-bit big-endian words. -/
def toWords (bytes : List Nat) : List Nat :=
  (List.range (bytes.length / 4)).map (fun i =>
    bytes.getD (4 * i) 0 * 2 ^ 24 + bytes.getD (4 * i + 1) 0 * 2 ^ 16 +
    bytes.getD (4 * i + 2) 0 * 2 ^ 8 + bytes.getD (4 * i + 3) 0)

/-- Extend the 16 words of one block to the 64-word message schedule. -/
def schedule (w16 : List Nat) : List Nat :=
  (List.range 48).foldl (fun ws _ =>
    let t := ws.length
    ws ++ [(smallSigma1 (ws.getD (t - 2) 0) + ws.getD (t - 7) 0 +
            smallSigma0 (ws.getD (t - 15) 0) + ws.getD (t - 16) 0) % 2 ^ 32]) w16

/-- Working state of the compression function: the eight 32-bit chaining words. -/
structure Hash8 where
  a : Nat
  b : Nat
  c : Nat
  d : Nat
  e : Nat
  f : Nat
  g : Nat
  h : Nat

def initH : Hash8 :=
  ⟨1779033703, 3144134277, 1013904242, 2773480762, 1359893119, 2600822924, 528734635, 1541459225⟩

def compressStep (w : List Nat) (st : Hash8) (t : Nat) : Hash8 :=
  let t1 := (st.h + bigSigma1 st.e + ch st.e st.f st.g + K.getD t 0 + w.getD t 0) % 2 ^ 32
  let t2 := (bigSigma0 st.a + maj st.a st.b st.c) % 2 ^ 32
  ⟨(t1 + t2) % 2 ^ 32, st.a, st.b, st.c, (st.d + t1) % 2 ^ 32, st.e, st.f, st.g⟩

def processBlock (hs : Hash8) (w16 : List Nat) : Hash8 :=
  let w := schedule w16
  let s := (List.range 64).foldl (compressStep w) hs
  ⟨(hs.a + s.a) % 2 ^ 32, (hs.b + s.b) % 2 ^ 32, (hs.c + s.c) % 2 ^ 32, (hs.d + s.d) % 2 ^ 32,
   (hs.e + s.e) % 2 ^ 32, (hs.f + s.f) % 2 ^ 32, (hs.g + s.g) % 2 ^ 32, (hs.h + s.h) % 2 ^ 32⟩

/-- Digest of a byte list, as the eight final 32-bit state words. -/
def sha256 (msg : List Nat) : Hash8 :=
  let padded := padBytes msg
  (List.range (padded.length / 64)).foldl
    (fun hs j => processBlock hs (toWords ((padded.drop (64 * j)).take 64))) initH

def hexDigit (d : Nat) : Char := if d < 10 then Char.ofNat (48 + d) else Char.ofNat (87 + d)

/-- One 32-bit word as 8 lowercase hex characters, most significant nibble first. -/
def wordHex (w : Nat) : List Char := (List.range 8).map (fun i => hexDigit ((w >>> (28 - 4 * i)) % 16))

/-- The 64 lowercase hex characters of a digest. -/
def hexChars (hs : Hash8) : List Char :=
  ([hs.a, hs.b, hs.c, hs.d, hs.e, hs.f, hs.g, hs.h].map wordHex).flatten

/-- Bytes of a string; addresses and keys in this family are ASCII, where
Rust's UTF-8 bytes and the characters coincide. -/
def strBytes (s : String) : List Nat := s.data.map Char.toNat

/-- Lowercase hex digest of a string, as rust-crypto's result_str produces it. -/
def sha256hexChars (s : String) : List Char := hexChars (sha256 (strBytes s))

end Sha256

/-! Embedding of src/common/src/addressing.rs. -/

def FAMILY_NAMESPACE : String := "bond namespace"

def ORGANIZATION : String := "organization"

def PARTICIPANT : String := "participant"

def BOND : String := "bond"

def HOLDING : String := "holding"

def SETTLEMENT : String := "settlement"

def RECEIPT : String := "receipt"

def ORDER : String := "order"

def QUOTE : String := "quote"

def PREFIX_SIZE : Nat := 6

/-- Function hash of addressing.rs: the lowercase hex SHA-256 digest of
`object`, truncated to the first `num` characters. -/
def hash (object : String) (num : Nat) : String := ⟨(Sha256.sha256hexChars object).take num⟩

def get_bond_namespace : String := hash FAMILY_NAMESPACE PREFIX_SIZE

def make_organization_address (organization_id : String) : String :=
  get_bond_namespace ++ hash ORGANIZATION PREFIX_SIZE ++ hash organization_id 58

def make_participant_address (public_key : String) : String :=
  get_bond_namespace ++ hash PARTICIPANT PREFIX_SIZE ++ hash public_key 58

def make_bond_address (bond_id : String) : String :=
  get_bond_namespace ++ hash BOND PREFIX_SIZE ++ hash bond_id 58

def make_holding_address (organization_id : String) (asset_id : String) : String :=
  get_bond_namespace ++ hash HOLDING PREFIX_SIZE ++ hash organization_id 22 ++ hash asset_id 36

def make_settlement_address (organization_id : String) (order_id : String) : String :=
  get_bond_namespace ++ hash SETTLEMENT PREFIX_SIZE ++ hash organization_id 22 ++ hash order_id 36

def make_receipt_address (organization_id : String) (bond_id : String) : String :=
  get_bond_namespace ++ hash RECEIPT PREFIX_SIZE ++ hash organization_id 22 ++ hash bond_id 36

def make_quote_address (organization_id : String) (bond_id : String) : String :=
  get_bond_namespace ++ hash QUOTE PREFIX_SIZE ++ hash organization_id 22 ++ hash bond_id 36

def make_order_address (organization_id : String) (bond_id : String) : String :=
  get_bond_namespace ++ hash ORDER PREFIX_SIZE ++ hash organization_id 22 ++ hash bond_id 36

inductive AddressSpace where
  | ORGANIZATION
  | PARTICIPANT
  | SETTLEMENT
  | HOLDING
  | RECEIPT
  | ORDER
  | QUOTE
  | BOND
  | ANOTHER_FAMILY
deriving DecidableEq, Repr

/-- The if-chain of get_address_type, applied to the six characters the source
extracts at offsets 6..12; the comparison order is the source's. -/
def classifyTag (tag : List Char) : AddressSpace :=
  if tag = (hash ORGANIZATION PREFIX_SIZE).data then .ORGANIZATION
  else if tag = (hash PARTICIPANT PREFIX_SIZE).data then .PARTICIPANT
  else if tag = (hash SETTLEMENT PREFIX_SIZE).data then .SETTLEMENT
  else if tag = (hash HOLDING PREFIX_SIZE).data then .HOLDING
  else if tag = (hash RECEIPT PREFIX_SIZE).data then .RECEIPT
  else if tag = (hash ORDER PREFIX_SIZE).data then .ORDER
  else if tag = (hash QUOTE PREFIX_SIZE).data then .QUOTE
  else if tag = (hash BOND PREFIX_SIZE).data then .BOND
  else .ANOTHER_FAMILY

/-- Character-list core of get_address_type, so that concatenation reasoning
stays at the list level. -/
def get_address_type_data (addressData : List Char) : Option AddressSpace :=
  if addressData.length < PREFIX_SIZE * 2 then none
  else some (classifyTag ((addressData.drop PREFIX_SIZE).take PREFIX_SIZE))

/-- Function get_address_type of addressing.rs.  The source takes the byte
slice address[6..12] with no length check; on an address shorter than 12
bytes that slice operation panics, which the embedding renders as `none`.
Addresses of this family are ASCII hex, so bytes and characters coincide. -/
def get_address_type (address : String) : Option AddressSpace :=
  get_address_type_data address.data

/-! Supporting lemmas about hash lengths and address classification. -/

theorem wordHex_length (w : Nat) : (Sha256.wordHex w).length = 8 := by
  simp [Sha256.wordHex]

theorem sha256hexChars_length (s : String) : (Sha256.sha256hexChars s).length = 64 := by
  simp [Sha256.sha256hexChars, Sha256.hexChars, wordHex_length]

theorem hash_data (object : String) (num : Nat) :
    (hash object num).data = (Sha256.sha256hexChars object).take num := rfl

theorem hash_data_length (object : String) (num : Nat) :
    (hash object num).data.length = min num 64 := by
  rw [hash_data, List.length_take, sha256hexChars_length]

theorem get_bond_namespace_data_length : get_bond_namespace.data.length = 6 := by
  rw [get_bond_namespace, hash_data_length]; rfl

/-- Extracting characters 6..12 from namespace ++ tag ++ rest lands exactly on
the tag, whenever the namespace and the tag are 6 characters long. -/
theorem slice_of_concat (ns tag rest : List Char) (h6 : ns.length = 6) (ht : tag.length = 6) :
    ((ns ++ (tag ++ rest)).drop 6).take 6 = tag := by
  have hdrop : (ns ++ (tag ++ rest)).drop 6 = tag ++ rest := by
    rw [← h6, List.drop_left]
  rw [hdrop, ← ht, List.take_left]

theorem hash6_length (tagStr : String) : (hash tagStr PREFIX_SIZE).data.length = 6 := by
  rw [hash_data_length]; rfl

theorem get_address_type_data_concat (tagStr : String) (rest : List Char) :
    get_address_type_data (get_bond_namespace.data ++ ((hash tagStr PREFIX_SIZE).data ++ rest)) =
      some (classifyTag (hash tagStr PREFIX_SIZE).data) := by
  have hlen : (get_bond_namespace.data ++ ((hash tagStr PREFIX_SIZE).data ++ rest)).length =
      12 + rest.length := by
    rw [List.length_append, List.length_append, get_bond_namespace_data_length,
      hash6_length]
    omega
  unfold get_address_type_data
  rw [if_neg (by rw [hlen, show PREFIX_SIZE * 2 = 12 from rfl]; omega)]
  rw [show PREFIX_SIZE = 6 from rfl]
  rw [slice_of_concat _ _ _ get_bond_namespace_data_length
    (show (hash tagStr 6).data.length = 6 from hash6_length tagStr)]

theorem make_organization_address_data (k : String) :
    (make_organization_address k).data =
      get_bond_namespace.data ++ ((hash ORGANIZATION PREFIX_SIZE).data ++ (hash k 58).data) := by
  simp [make_organization_address, String.data_append, List.append_assoc]

theorem make_participant_address_data (k : String) :
    (make_participant_address k).data =
      get_bond_namespace.data ++ ((hash PARTICIPANT PREFIX_SIZE).data ++ (hash k 58).data) := by
  simp [make_participant_address, String.data_append, List.append_assoc]

theorem make_bond_address_data (k : String) :
    (make_bond_address k).data =
      get_bond_namespace.data ++ ((hash BOND PREFIX_SIZE).data ++ (hash k 58).data) := by
  simp [make_bond_address, String.data_append, List.append_assoc]

theorem make_holding_address_data (k1 k2 : String) :
    (make_holding_address k1 k2).data =
      get_bond_namespace.data ++
        ((hash HOLDING PREFIX_SIZE).data ++ ((hash k1 22).data ++ (hash k2 36).data)) := by
  simp [make_holding_address, String.data_append, List.append_assoc]

theorem make_settlement_address_data (k1 k2 : String) :
    (make_settlement_address k1 k2).data =
      get_bond_namespace.data ++
        ((hash SETTLEMENT PREFIX_SIZE).data ++ ((hash k1 22).data ++ (hash k2 36).data)) := by
  simp [make_settlement_address, String.data_append, List.append_assoc]

theorem make_receipt_address_data (k1 k2 : String) :
    (make_receipt_address k1 k2).data =
      get_bond_namespace.data ++
        ((hash RECEIPT PREFIX_SIZE).data ++ ((hash k1 22).data ++ (hash k2 36).data)) := by
  simp [make_receipt_address, String.data_append, List.append_assoc]

theorem make_quote_address_data (k1 k2 : String) :
    (make_quote_address k1 k2).data =
      get_bond_namespace.data ++
        ((hash QUOTE PREFIX_SIZE).data ++ ((hash k1 22).data ++ (hash k2 36).data)) := by
  simp [make_quote_address, String.data_append, List.append_assoc]

theorem make_order_address_data (k1 k2 : String) :
    (make_order_address k1 k2).data =
      get_bond_namespace.data ++
        ((hash ORDER PREFIX_SIZE).data ++ ((hash k1 22).data ++ (hash k2 36).data)) := by
  simp [make_order_address, String.data_append, List.append_assoc]

theorem hash_FAMILY_NAMESPACE : hash FAMILY_NAMESPACE PREFIX_SIZE = "d16f4b" := by decide

theorem hash_ORGANIZATION : hash ORGANIZATION PREFIX_SIZE = "af3a1b" := by decide

theorem hash_PARTICIPANT : hash PARTICIPANT PREFIX_SIZE = "c0cde0" := by decide

theorem hash_SETTLEMENT : hash SETTLEMENT PREFIX_SIZE = "a75c43" := by decide

theorem hash_HOLDING : hash HOLDING PREFIX_SIZE = "e77b14" := by decide

theorem hash_RECEIPT : hash RECEIPT PREFIX_SIZE = "6f3286" := by decide

theorem hash_ORDER : hash ORDER PREFIX_SIZE = "3eeb7e" := by decide

theorem hash_QUOTE : hash QUOTE PREFIX_SIZE = "632724" := by decide

theorem hash_BOND : hash BOND PREFIX_SIZE = "f21dea" := by decide

theorem classifyTag_organization :
    classifyTag (hash ORGANIZATION PREFIX_SIZE).data = .ORGANIZATION := by
  unfold classifyTag
  rw [hash_ORGANIZATION]
  decide

theorem classifyTag_participant :
    classifyTag (hash PARTICIPANT PREFIX_SIZE).data = .PARTICIPANT := by
  unfold classifyTag
  rw [hash_ORGANIZATION, hash_PARTICIPANT]
  decide

theorem classifyTag_settlement :
    classifyTag (hash SETTLEMENT PREFIX_SIZE).data = .SETTLEMENT := by
  unfold classifyTag
  rw [hash_ORGANIZATION, hash_PARTICIPANT, hash_SETTLEMENT]
  decide

theorem classifyTag_holding :
    classifyTag (hash HOLDING PREFIX_SIZE).data = .HOLDING := by
  unfold classifyTag
  rw [hash_ORGANIZATION, hash_PARTICIPANT, hash_SETTLEMENT, hash_HOLDING]
  decide

theorem classifyTag_receipt :
    classifyTag (hash RECEIPT PREFIX_SIZE).data = .RECEIPT := by
  unfold classifyTag
  rw [hash_ORGANIZATION, hash_PARTICIPANT, hash_SETTLEMENT, hash_HOLDING, hash_RECEIPT]
  decide

theorem classifyTag_order :
    classifyTag (hash ORDER PREFIX_SIZE).data = .ORDER := by
  unfold classifyTag
  rw [hash_ORGANIZATION, hash_PARTICIPANT, hash_SETTLEMENT, hash_HOLDING, hash_RECEIPT,
    hash_ORDER]
  decide

theorem classifyTag_quote :
    classifyTag (hash QUOTE PREFIX_SIZE).data = .QUOTE := by
  unfold classifyTag
  rw [hash_ORGANIZATION, hash_PARTICIPANT, hash_SETTLEMENT, hash_HOLDING, hash_RECEIPT,
    hash_ORDER, hash_QUOTE]
  decide

theorem classifyTag_bond :
    classifyTag (hash BOND PREFIX_SIZE).data = .BOND := by
  unfold classifyTag
  rw [hash_ORGANIZATION, hash_PARTICIPANT, hash_SETTLEMENT, hash_HOLDING, hash_RECEIPT,
    hash_ORDER, hash_QUOTE, hash_BOND]
  decide

theorem address_data_length_concat (t : String) (rest : List Char) :
    (get_bond_namespace.data ++ ((hash t PREFIX_SIZE).data ++ rest)).length =
      12 + rest.length := by
  rw [List.length_append, List.length_append, get_bond_namespace_data_length, hash6_length]
  omega

/-- Claim C6: for every entity type and every natural key, deriving the
address twice yields identical 70-character results, and classifying the
derived address returns that same entity type, for all eight entity types. -/
theorem C6_address_determinism_roundtrip (k k1 k2 : String) :
    (make_organization_address k = make_organization_address k ∧
      (make_organization_address k).length = 70 ∧
      get_address_type (make_organization_address k) = some .ORGANIZATION) ∧
    (make_participant_address k = make_participant_address k ∧
      (make_participant_address k).length = 70 ∧
      get_address_type (make_participant_address k) = some .PARTICIPANT) ∧
    (make_bond_address k = make_bond_address k ∧
      (make_bond_address k).length = 70 ∧
      get_address_type (make_bond_address k) = some .BOND) ∧
    (make_holding_address k1 k2 = make_holding_address k1 k2 ∧
      (make_holding_address k1 k2).length = 70 ∧
      get_address_type (make_holding_address k1 k2) = some .HOLDING) ∧
    (make_settlement_address k1 k2 = make_settlement_address k1 k2 ∧
      (make_settlement_address k1 k2).length = 70 ∧
      get_address_type (make_settlement_address k1 k2) = some .SETTLEMENT) ∧
    (make_receipt_address k1 k2 = make_receipt_address k1 k2 ∧
      (make_receipt_address k1 k2).length = 70 ∧
      get_address_type (make_receipt_address k1 k2) = some .RECEIPT) ∧
    (make_order_address k1 k2 = make_order_address k1 k2 ∧
      (make_order_address k1 k2).length = 70 ∧
      get_address_type (make_order_address k1 k2) = some .ORDER) ∧
    (make_quote_address k1 k2 = make_quote_address k1 k2 ∧
      (make_quote_address k1 k2).length = 70 ∧
      get_address_type (make_quote_address k1 k2) = some .QUOTE) := by
  refine ⟨⟨rfl, ?_, ?_⟩, ⟨rfl, ?_, ?_⟩, ⟨rfl, ?_, ?_⟩, ⟨rfl, ?_, ?_⟩,
    ⟨rfl, ?_, ?_⟩, ⟨rfl, ?_, ?_⟩, ⟨rfl, ?_, ?_⟩, ⟨rfl, ?_, ?_⟩⟩
  · show (make_organization_address k).data.length = 70
    rw [make_organization_address_data, address_data_length_concat, hash_data_length]
    decide
  · show get_address_type_data (make_organization_address k).data = some .ORGANIZATION
    rw [make_organization_address_data, get_address_type_data_concat,
      classifyTag_organization]
  · show (make_participant_address k).data.length = 70
    rw [make_participant_address_data, address_data_length_concat, hash_data_length]
    decide
  · show get_address_type_data (make_participant_address k).data = some .PARTICIPANT
    rw [make_participant_address_data, get_address_type_data_concat, classifyTag_participant]
  · show (make_bond_address k).data.length = 70
    rw [make_bond_address_data, address_data_length_concat, hash_data_length]
    decide
  · show get_address_type_data (make_bond_address k).data = some .BOND
    rw [make_bond_address_data, get_address_type_data_concat, classifyTag_bond]
  · show (make_holding_address k1 k2).data.length = 70
    rw [make_holding_address_data, address_data_length_concat, List.length_append,
      hash_data_length, hash_data_length]
    decide
  · show get_address_type_data (make_holding_address k1 k2).data = some .HOLDING
    rw [make_holding_address_data, get_address_type_data_concat, classifyTag_holding]
  · show (make_settlement_address k1 k2).data.length = 70
    rw [make_settlement_address_data, address_data_length_concat, List.length_append,
      hash_data_length, hash_data_length]
    decide
  · show get_address_type_data (make_settlement_address k1 k2).data = some .SETTLEMENT
    rw [make_settlement_address_data, get_address_type_data_concat, classifyTag_settlement]
  · show (make_receipt_address k1 k2).data.length = 70
    rw [make_receipt_address_data, address_data_length_concat, List.length_append,
      hash_data_length, hash_data_length]
    decide
  · show get_address_type_data (make_receipt_address k1 k2).data = some .RECEIPT
    rw [make_receipt_address_data, get_address_type_data_concat, classifyTag_receipt]
  · show (make_order_address k1 k2).data.length = 70
    rw [make_order_address_data, address_data_length_concat, List.length_append,
      hash_data_length, hash_data_length]
    decide
  · show get_address_type_data (make_order_address k1 k2).data = some .ORDER
    rw [make_order_address_data, get_address_type_data_concat, classifyTag_order]
  · show (make_quote_address k1 k2).data.length = 70
    rw [make_quote_address_data, address_data_length_concat, List.length_append,
      hash_data_length, hash_data_length]
    decide
  · show get_address_type_data (make_quote_address k1 k2).data = some .QUOTE
    rw [make_quote_address_data, get_address_type_data_concat, classifyTag_quote]

/-- Claim C7, counterexample: at the concrete short input "" (and at "abcdef",
via the amended theorem) classification does not fail with a MalformedAddress
error — there is no error value in the code at all; the source's byte slice
address[6..12] panics, which the embedding renders as `none`: classification
crashes rather than returning any result. -/
theorem C7_counterexample :
    get_address_type "" = none ∧ ∀ a : AddressSpace, get_address_type "" ≠ some a := by
  refine ⟨rfl, fun a h => ?_⟩
  rw [show get_address_type "" = none from rfl] at h
  exact Option.noConfusion h

/-- Claim C7, amended: for every input address shorter than 12 characters,
get_address_type hits an out-of-bounds byte slice and panics (modelled as
`none`); no MalformedAddress error exists in the code. -/
theorem C7_amended_short_address_panics (address : String)
    (h : address.data.length < 12) : get_address_type address = none := by
  unfold get_address_type get_address_type_data
  rw [if_pos (show address.data.length < PREFIX_SIZE * 2 from h)]

theorem C7_witness : ("abcdef" : String).data.length < 12 ∧ get_address_type "abcdef" = none :=
  ⟨by decide, C7_amended_short_address_panics "abcdef" (by decide)⟩

/-- Claim C10: classification depends only on characters 6 through 11 of the
address — any two addresses of length at least 12 agreeing on that slice get
the same classification; in particular the namespace characters 0..5 are
never inspected. -/
theorem C10_classification_depends_only_on_tag (a b : String)
    (ha : 12 ≤ a.data.length) (hb : 12 ≤ b.data.length)
    (hslice : (a.data.drop 6).take 6 = (b.data.drop 6).take 6) :
    get_address_type a = get_address_type b := by
  unfold get_address_type get_address_type_data
  rw [show PREFIX_SIZE = 6 from rfl]
  rw [if_neg (by omega), if_neg (by omega), hslice]

/-- Witness for C10: a genuine family address for organization id "T" and a
foreign address starting with the different namespace 000000 but carrying the
same six tag characters af3a1b classify identically — both as ORGANIZATION,
not as ANOTHER_FAMILY. -/
theorem C10_witness :
    get_address_type (make_organization_address "T") =
        get_address_type "000000af3a1bxxxxxx" ∧
      get_address_type "000000af3a1bxxxxxx" = some .ORGANIZATION :=
  ⟨C10_classification_depends_only_on_tag _ _ (by decide) (by decide) (by decide),
    by decide⟩

/-! Embedding of the bond_database models and custom types.  The crate's
models.rs and custom_types.rs are outside src/; every field and enum variant
below is reconstructed from their uses inside src/ (the row constructions in
data_manager.rs's tests and in event_handler.rs's get_new functions). -/

inductive OrganizationTypeEnum where
  | TRADINGFIRM
  | PRICINGSOURCE
deriving DecidableEq, Repr

inductive RoleEnum where
  | MAKERTMAKER
  | TRADER
deriving DecidableEq, Repr

inductive AssetTypeEnum where
  | CURRENCY
  | BOND
deriving DecidableEq, Repr

inductive OrderStatusEnum where
  | OPEN
  | MATCHED
  | SETTLED
deriving DecidableEq, Repr

inductive OrderActionEnum where
  | BUY
  | SELL
deriving DecidableEq, Repr

inductive OrderTypeEnum where
  | MARKET
  | LIMIT
deriving DecidableEq, Repr

inductive QuoteStatusEnum where
  | OPEN
  | CLOSED
deriving DecidableEq, Repr

inductive PaymentTypeEnum where
  | COUPON
  | REDEMPTION
deriving DecidableEq, Repr

inductive CouponTypeEnum where
  | FIXED
  | FLOATING
deriving DecidableEq, Repr

inductive CouponFrequencyEnum where
  | QUARTERLY
  | MONTHLY
  | DAILY
deriving DecidableEq, Repr

structure NewOrganization where
  organization_id : String
  industry : Option String
  name : Option String
  organization_type : OrganizationTypeEnum
  start_block_num : Int
  end_block_num : Int
deriving DecidableEq, Repr

structure NewParticipant where
  public_key : String
  organization_id : String
  username : String
  start_block_num : Int
  end_block_num : Int
deriving DecidableEq, Repr

structure NewAuthorization where
  participant_public_key : String
  organization_id : String
  role : RoleEnum
  start_block_num : Int
  end_block_num : Int
deriving DecidableEq, Repr

structure NewBond where
  bond_id : String
  issuing_organization_id : String
  amount_outstanding : Int
  coupon_rate : Int
  first_coupon_date : Int
  first_settlement_date : Int
  maturity_date : Int
  face_value : Int
  coupon_type : CouponTypeEnum
  coupon_frequency : CouponFrequencyEnum
  start_block_num : Int
  end_block_num : Int
deriving DecidableEq, Repr

structure NewCorporateDebtRating where
  bond_id : String
  agency : String
  rating : String
  start_block_num : Int
  end_block_num : Int
deriving DecidableEq, Repr

structure NewHolding where
  owner_organization_id : String
  asset_id : String
  asset_type : AssetTypeEnum
  amount : Int
  start_block_num : Int
  end_block_num : Int
  address : String
deriving DecidableEq, Repr

structure NewOrder where
  bond_id : String
  ordering_organization_id : String
  order_id : String
  limit_price : Option Int
  limit_yield : Option Int
  quantity : Int
  quote_id : Option String
  status : OrderStatusEnum
  action : OrderActionEnum
  order_type : OrderTypeEnum
  timestamp : Int
  start_block_num : Int
  end_block_num : Int
deriving DecidableEq, Repr

structure NewQuote where
  bond_id : String
  organization_id : String
  ask_price : Int
  ask_qty : Int
  bid_price : Int
  bid_qty : Int
  quote_id : String
  status : QuoteStatusEnum
  timestamp : Int
  start_block_num : Int
  end_block_num : Int
deriving DecidableEq, Repr

structure NewSettlement where
  order_id : String
  ordering_organization_id : String
  quoting_organization_id : String
  action : OrderActionEnum
  bond_quantity : Int
  currency_amount : Int
  start_block_num : Int
  end_block_num : Int
deriving DecidableEq, Repr

structure NewReceipt where
  bond_id : String
  payee_organization_id : String
  payment_type : PaymentTypeEnum
  coupon_date : Int
  amount : Int
  timestamp : Int
  start_block_num : Int
  end_block_num : Int
deriving DecidableEq, Repr

structure Block where
  block_num : Int
  block_id : Option String
deriving DecidableEq, Repr

/-! Embedding of src/database/src/data_manager.rs.  The DataManager's pooled
connection becomes an explicit `Db` value holding every table it owns; each
method takes and returns the store state. -/

def MAX_BLOCK_NUM : Int := 2 ^ 63 - 1

structure Db where
  organizations : List NewOrganization
  participants : List NewParticipant
  authorizations : List NewAuthorization
  bonds : List NewBond
  corporate_debt_ratings : List NewCorporateDebtRating
  holdings : List NewHolding
  orders : List NewOrder
  quotes : List NewQuote
  settlements : List NewSettlement
  receipts : List NewReceipt
  blocks : List Block
deriving DecidableEq, Repr

def emptyDb : Db := ⟨[], [], [], [], [], [], [], [], [], [], []⟩

inductive TransactionType where
  | InsertBond (bond : NewBond) (corp_dept_ratings : List NewCorporateDebtRating)
  | InsertHolding (holding : NewHolding)
  | UpdateHolding (address : String) (current_block_num : Int) (max_block_num : Int)
  | InsertOrder (order : NewOrder)
  | InsertOrganization (org : NewOrganization) (authorizations : List NewAuthorization)
  | InsertParticipant (participant : NewParticipant)
  | InsertQuote (quote : NewQuote)
  | InsertSettlement (settlement : NewSettlement)
  | InsertReceipt (receipt : NewReceipt)
deriving DecidableEq, Repr

def insert_block (db : Db) (block : Block) : Db :=
  { db with blocks := db.blocks ++ [block] }

/-- Primary-key lookup on the block table (diesel `find` on block_num). -/
def get_block_if_exists (db : Db) (block_num : Int) : Option Block :=
  db.blocks.find? (fun b => b.block_num == block_num)

def is_fork (block_in_db : Block) (block_to_be_inserted : Block) : Bool :=
  if block_in_db.block_id == block_to_be_inserted.block_id then false else true

def update_authorization (db : Db) (organization_id : String) (participant_public_key : String)
    (current_block_num : Int) : Db :=
  { db with authorizations := db.authorizations.map (fun r =>
      if r.organization_id = organization_id ∧
          r.participant_public_key = participant_public_key ∧
          r.end_block_num = MAX_BLOCK_NUM
      then { r with end_block_num := current_block_num } else r) }

def insert_authorization (db : Db) (authorization : NewAuthorization) : Db :=
  let db := update_authorization db authorization.organization_id
    authorization.participant_public_key authorization.start_block_num
  { db with authorizations := db.authorizations ++ [authorization] }

def insert_bond (db : Db) (bond : NewBond) : Db :=
  { db with bonds := db.bonds ++ [bond] }

def insert_corp_dept_ratings (db : Db) (corp_dept_ratings : NewCorporateDebtRating) : Db :=
  { db with corporate_debt_ratings := db.corporate_debt_ratings ++ [corp_dept_ratings] }

def insert_holding (db : Db) (holding : NewHolding) : Db :=
  { db with holdings := db.holdings ++ [holding] }

def update_holding (db : Db) (address : String) (current_block_num : Int)
    (max_block_num : Int) : Db :=
  { db with holdings := db.holdings.map (fun r =>
      if r.address = address ∧ r.end_block_num = max_block_num
      then { r with end_block_num := current_block_num } else r) }

def insert_order (db : Db) (order : NewOrder) : Db :=
  { db with orders := db.orders ++ [order] }

def update_organization (db : Db) (organization_id : String) (current_block_num : Int)
    (max_block_num : Int) : Db :=
  { db with organizations := db.organizations.map (fun r =>
      if r.end_block_num = max_block_num ∧ r.organization_id = organization_id
      then { r with end_block_num := current_block_num } else r) }

def insert_organization (db : Db) (organization : NewOrganization) : Db :=
  let db := update_organization db organization.organization_id
    organization.start_block_num organization.end_block_num
  { db with organizations := db.organizations ++ [organization] }

def update_participant (db : Db) (public_key : String) (current_block_num : Int)
    (max_block_num : Int) : Db :=
  { db with participants := db.participants.map (fun r =>
      if r.end_block_num = max_block_num ∧ r.public_key = public_key
      then { r with end_block_num := current_block_num } else r) }

def insert_participant (db : Db) (participant : NewParticipant) : Db :=
  let db := update_participant db participant.public_key
    participant.start_block_num participant.end_block_num
  { db with participants := db.participants ++ [participant] }

def insert_quote (db : Db) (quote : NewQuote) : Db :=
  { db with quotes := db.quotes ++ [quote] }

def insert_settlement (db : Db) (settlement : NewSettlement) : Db :=
  { db with settlements := db.settlements ++ [settlement] }

def insert_receipt (db : Db) (receipt : NewReceipt) : Db :=
  { db with receipts := db.receipts ++ [receipt] }


/-- Versioned rows as drop_fork sees them.  In the backing schema every
versioned table inherits from the Postgres parent table chain_record
(tables/load_bond_db.sql, outside src/), so the source's single DELETE and
single UPDATE against chain_record act on every versioned table at once —
behaviour pinned by the test test_drop_fork in data_manager.rs.  The class
exposes the two inherited columns and the end_block_num update. -/
class ChainRecord (α : Type) where
  start_block_num : α → Int
  end_block_num : α → Int
  set_end : α → Int → α
  start_set_end : ∀ r v, start_block_num (set_end r v) = start_block_num r
  end_set_end : ∀ r v, end_block_num (set_end r v) = v

instance : ChainRecord NewOrganization where
  start_block_num := NewOrganization.start_block_num
  end_block_num := NewOrganization.end_block_num
  set_end r v := { r with end_block_num := v }
  start_set_end _ _ := rfl
  end_set_end _ _ := rfl

instance : ChainRecord NewParticipant where
  start_block_num := NewParticipant.start_block_num
  end_block_num := NewParticipant.end_block_num
  set_end r v := { r with end_block_num := v }
  start_set_end _ _ := rfl
  end_set_end _ _ := rfl

instance : ChainRecord NewAuthorization where
  start_block_num := NewAuthorization.start_block_num
  end_block_num := NewAuthorization.end_block_num
  set_end r v := { r with end_block_num := v }
  start_set_end _ _ := rfl
  end_set_end _ _ := rfl

instance : ChainRecord NewBond where
  start_block_num := NewBond.start_block_num
  end_block_num := NewBond.end_block_num
  set_end r v := { r with end_block_num := v }
  start_set_end _ _ := rfl
  end_set_end _ _ := rfl

instance : ChainRecord NewCorporateDebtRating where
  start_block_num := NewCorporateDebtRating.start_block_num
  end_block_num := NewCorporateDebtRating.end_block_num
  set_end r v := { r with end_block_num := v }
  start_set_end _ _ := rfl
  end_set_end _ _ := rfl

instance : ChainRecord NewHolding where
  start_block_num := NewHolding.start_block_num
  end_block_num := NewHolding.end_block_num
  set_end r v := { r with end_block_num := v }
  start_set_end _ _ := rfl
  end_set_end _ _ := rfl

instance : ChainRecord NewOrder where
  start_block_num := NewOrder.start_block_num
  end_block_num := NewOrder.end_block_num
  set_end r v := { r with end_block_num := v }
  start_set_end _ _ := rfl
  end_set_end _ _ := rfl

instance : ChainRecord NewQuote where
  start_block_num := NewQuote.start_block_num
  end_block_num := NewQuote.end_block_num
  set_end r v := { r with end_block_num := v }
  start_set_end _ _ := rfl
  end_set_end _ _ := rfl

instance : ChainRecord NewSettlement where
  start_block_num := NewSettlement.start_block_num
  end_block_num := NewSettlement.end_block_num
  set_end r v := { r with end_block_num := v }
  start_set_end _ _ := rfl
  end_set_end _ _ := rfl

instance : ChainRecord NewReceipt where
  start_block_num := NewReceipt.start_block_num
  end_block_num := NewReceipt.end_block_num
  set_end r v := { r with end_block_num := v }
  start_set_end _ _ := rfl
  end_set_end _ _ := rfl

/-- Effect of drop_fork's chain_record DELETE (rows with
start_block_num >= block_num removed) followed by its UPDATE (remaining rows
with end_block_num >= block_num reopened to MAX_BLOCK_NUM), on one table. -/
def drop_fork_table {α : Type} [ChainRecord α] (block_num : Int) (rows : List α) : List α :=
  (rows.filter (fun r => decide (ChainRecord.start_block_num r < block_num))).map
    (fun r => if block_num ≤ ChainRecord.end_block_num r
      then ChainRecord.set_end r MAX_BLOCK_NUM else r)

def drop_fork (db : Db) (block_num : Int) : Db :=
  { organizations := drop_fork_table block_num db.organizations
    participants := drop_fork_table block_num db.participants
    authorizations := drop_fork_table block_num db.authorizations
    bonds := drop_fork_table block_num db.bonds
    corporate_debt_ratings := drop_fork_table block_num db.corporate_debt_ratings
    holdings := drop_fork_table block_num db.holdings
    orders := drop_fork_table block_num db.orders
    quotes := drop_fork_table block_num db.quotes
    settlements := drop_fork_table block_num db.settlements
    receipts := drop_fork_table block_num db.receipts
    blocks := db.blocks.filter (fun b => decide (b.block_num < block_num)) }

def execute_transaction (db : Db) : TransactionType → Db
  | .InsertBond bond corp_dept_ratings =>
      corp_dept_ratings.foldl insert_corp_dept_ratings (insert_bond db bond)
  | .InsertHolding holding => insert_holding db holding
  | .UpdateHolding address current_block_num max_block_num =>
      update_holding db address current_block_num max_block_num
  | .InsertOrder order => insert_order db order
  | .InsertOrganization org authorizations =>
      authorizations.foldl insert_authorization (insert_organization db org)
  | .InsertParticipant participant => insert_participant db participant
  | .InsertQuote quote => insert_quote db quote
  | .InsertSettlement settlement => insert_settlement db settlement
  | .InsertReceipt receipt => insert_receipt db receipt

/-- Function execute_transactions_in_block of data_manager.rs: resolve the
incoming block against the recorded one at the same height (new, duplicate or
fork), roll back on a fork, apply the operations in order, record the block.
The diesel transaction wrapper makes the whole thing atomic; store errors
abort it wholesale and are external to the model, so the embedding is total. -/
def execute_transactions_in_block (db : Db) (transactions : List TransactionType)
    (block : Block) : Db :=
  match get_block_if_exists db block.block_num with
  | some block_in_db =>
      if is_fork block_in_db block then
        insert_block
          ((transactions.foldl execute_transaction (drop_fork db block.block_num))) block
      else db
  | none => insert_block (transactions.foldl execute_transaction db) block


/-! Embedding of src/subscriber/src/event_handler.rs.  The protobuf message
types live in the bond_common proto crate, outside src/; the structures below
carry exactly the fields the handler reads.  Protobuf decoding of raw value
bytes is modelled abstractly: a value either parses as one concrete message
or fails, which is what unpack_data surfaces as a Result. -/

inductive Organization_OrganizationType where
  | TRADING_FIRM
  | PRICING_SOURCE
deriving DecidableEq, Repr

inductive Organization_Authorization_Role where
  | MARKETMAKER
  | TRADER
deriving DecidableEq, Repr

inductive Settlement_Action where
  | BUY
  | SELL
deriving DecidableEq, Repr

inductive Holding_AssetType where
  | CURRENCY
  | BOND
deriving DecidableEq, Repr

inductive Order_Status where
  | OPEN
  | MATCHED
  | SETTLED
deriving DecidableEq, Repr

inductive Order_Action where
  | BUY
  | SELL
deriving DecidableEq, Repr

inductive Order_OrderType where
  | MARKET
  | LIMIT
deriving DecidableEq, Repr

inductive Bond_CouponType where
  | FIXED
  | FLOATING
deriving DecidableEq, Repr

inductive Bond_CouponFrequency where
  | QUARTERLY
  | MONTHLY
  | DAILY
deriving DecidableEq, Repr

inductive Receipt_PaymentType where
  | COUPON
  | REDEMPTION
deriving DecidableEq, Repr

inductive Quote_Status where
  | OPEN
  | CLOSED
deriving DecidableEq, Repr

structure Organization_Authorization where
  public_key : String
  role : Organization_Authorization_Role
deriving DecidableEq, Repr

structure OrganizationProto where
  organization_id : String
  industry : String
  name : String
  organization_type : Organization_OrganizationType
  authorizations : List Organization_Authorization
deriving DecidableEq, Repr

structure ParticipantProto where
  public_key : String
  organization_id : String
  username : String
deriving DecidableEq, Repr

structure SettlementProto where
  order_id : String
  ordering_organization_id : String
  quoting_organization_id : String
  action : Settlement_Action
  bond_quantity : Int
  currency_amount : Int
deriving DecidableEq, Repr

structure HoldingProto where
  organization_id : String
  asset_id : String
  asset_type : Holding_AssetType
  amount : Int
deriving DecidableEq, Repr

structure OrderProto where
  order_id : String
  ordering_organization_id : String
  limit_price : Int
  limit_yield : Int
  quantity : Int
  quote_id : String
  status : Order_Status
  action : Order_Action
  order_type : Order_OrderType
  timestamp : Int
deriving DecidableEq, Repr

structure Bond_CorporateDebtRating where
  agency : String
  rating : String
deriving DecidableEq, Repr

structure BondProto where
  bond_id : String
  issuing_organization_id : String
  amount_outstanding : Int
  coupon_rate : Int
  first_coupon_date : Int
  first_settlement_date : Int
  maturity_date : Int
  face_value : Int
  coupon_type : Bond_CouponType
  coupon_frequency : Bond_CouponFrequency
  corporate_debt_ratings : List Bond_CorporateDebtRating
deriving DecidableEq, Repr

structure ReceiptProto where
  organization_id : String
  bond_id : String
  payment_type : Receipt_PaymentType
  coupon_date : Int
  amount : Int
  timestamp : Int
deriving DecidableEq, Repr

structure QuoteProto where
  bond_id : String
  organization_id : String
  ask_price : Int
  ask_qty : Int
  bid_price : Int
  bid_qty : Int
  quote_id : String
  status : Quote_Status
  timestamp : Int
deriving DecidableEq, Repr

/-- Raw value bytes of a state change, modelled by what they decode to: one
concrete protobuf message, or garbage that fails every expected decode. -/
inductive StateValue where
  | organization (o : OrganizationProto)
  | participant (p : ParticipantProto)
  | settlement (s : SettlementProto)
  | holding (h : HoldingProto)
  | order (o : OrderProto)
  | bond (b : BondProto)
  | receipt (r : ReceiptProto)
  | quote (q : QuoteProto)
  | garbage
deriving DecidableEq, Repr

inductive StateChange_Type where
  | TYPE_UNSET
  | SET
  | DELETE
deriving DecidableEq, Repr

structure StateChange where
  address : String
  value : StateValue
  field_type : StateChange_Type
deriving DecidableEq, Repr

def unpack_organization : StateValue → Except String OrganizationProto
  | .organization o => .ok o
  | _ => .error "protobuf decode error"

def unpack_participant : StateValue → Except String ParticipantProto
  | .participant p => .ok p
  | _ => .error "protobuf decode error"

def unpack_settlement : StateValue → Except String SettlementProto
  | .settlement s => .ok s
  | _ => .error "protobuf decode error"

def unpack_holding : StateValue → Except String HoldingProto
  | .holding h => .ok h
  | _ => .error "protobuf decode error"

def unpack_order : StateValue → Except String OrderProto
  | .order o => .ok o
  | _ => .error "protobuf decode error"

def unpack_bond : StateValue → Except String BondProto
  | .bond b => .ok b
  | _ => .error "protobuf decode error"

def unpack_receipt : StateValue → Except String ReceiptProto
  | .receipt r => .ok r
  | _ => .error "protobuf decode error"

def unpack_quote : StateValue → Except String QuoteProto
  | .quote q => .ok q
  | _ => .error "protobuf decode error"

def get_new_organization (org : OrganizationProto) (block : Block) : NewOrganization :=
  { organization_id := org.organization_id
    industry := some org.industry
    name := some org.name
    organization_type := match org.organization_type with
      | .TRADING_FIRM => .TRADINGFIRM
      | .PRICING_SOURCE => .PRICINGSOURCE
    start_block_num := block.block_num
    end_block_num := MAX_BLOCK_NUM }

def get_new_authorization (auths : List Organization_Authorization) (block : Block)
    (organization_id : String) : List NewAuthorization :=
  auths.map (fun auth =>
    { organization_id := organization_id
      participant_public_key := auth.public_key
      role := match auth.role with
        | .MARKETMAKER => .MAKERTMAKER
        | .TRADER => .TRADER
      start_block_num := block.block_num
      end_block_num := MAX_BLOCK_NUM })

def get_new_participant (participant : ParticipantProto) (block : Block) : NewParticipant :=
  { public_key := participant.public_key
    organization_id := participant.organization_id
    username := participant.username
    start_block_num := block.block_num
    end_block_num := MAX_BLOCK_NUM }

def get_new_settlement (settlement : SettlementProto) (block : Block) : NewSettlement :=
  { order_id := settlement.order_id
    ordering_organization_id := settlement.ordering_organization_id
    quoting_organization_id := settlement.quoting_organization_id
    action := match settlement.action with
      | .BUY => .BUY
      | .SELL => .SELL
    bond_quantity := settlement.bond_quantity
    currency_amount := settlement.currency_amount
    start_block_num := block.block_num
    end_block_num := MAX_BLOCK_NUM }

def get_new_holding (holding : HoldingProto) (block : Block) (address : String) : NewHolding :=
  { owner_organization_id := holding.organization_id
    asset_id := holding.asset_id
    asset_type := match holding.asset_type with
      | .CURRENCY => .CURRENCY
      | .BOND => .BOND
    amount := holding.amount
    start_block_num := block.block_num
    end_block_num := MAX_BLOCK_NUM
    address := address }

/-- Order row built by the handler.  The source copies the order id into the
bond_id column (`bond_id: order.get_order_id()`), kept faithfully here. -/
def get_new_order (order : OrderProto) (block : Block) : NewOrder :=
  { bond_id := order.order_id
    ordering_organization_id := order.ordering_organization_id
    order_id := order.order_id
    limit_price := some order.limit_price
    limit_yield := some order.limit_yield
    quantity := order.quantity
    quote_id := some order.quote_id
    status := match order.status with
      | .OPEN => .OPEN
      | .MATCHED => .MATCHED
      | .SETTLED => .SETTLED
    action := match order.action with
      | .BUY => .BUY
      | .SELL => .SELL
    order_type := match order.order_type with
      | .MARKET => .MARKET
      | .LIMIT => .LIMIT
    timestamp := order.timestamp
    start_block_num := block.block_num
    end_block_num := MAX_BLOCK_NUM }

def get_new_bond (bond : BondProto) (block : Block) : NewBond :=
  { bond_id := bond.bond_id
    issuing_organization_id := bond.issuing_organization_id
    amount_outstanding := bond.amount_outstanding
    coupon_rate := bond.coupon_rate
    first_coupon_date := bond.first_coupon_date
    first_settlement_date := bond.first_settlement_date
    maturity_date := bond.maturity_date
    face_value := bond.face_value
    coupon_type := match bond.coupon_type with
      | .FIXED => .FIXED
      | .FLOATING => .FLOATING
    coupon_frequency := match bond.coupon_frequency with
      | .QUARTERLY => .QUARTERLY
      | .MONTHLY => .MONTHLY
      | .DAILY => .DAILY
    start_block_num := block.block_num
    end_block_num := MAX_BLOCK_NUM }

def get_new_corporate_debt_ratings (ratings : List Bond_CorporateDebtRating) (block : Block)
    (bond_id : String) : List NewCorporateDebtRating :=
  ratings.map (fun rating =>
    { bond_id := bond_id
      agency := rating.agency
      rating := rating.rating
      start_block_num := block.block_num
      end_block_num := MAX_BLOCK_NUM })

def get_new_receipt (receipt : ReceiptProto) (block : Block) : NewReceipt :=
  { payee_organization_id := receipt.organization_id
    bond_id := receipt.bond_id
    payment_type := match receipt.payment_type with
      | .COUPON => .COUPON
      | .REDEMPTION => .REDEMPTION
    coupon_date := receipt.coupon_date
    amount := receipt.amount
    timestamp := receipt.timestamp
    start_block_num := block.block_num
    end_block_num := MAX_BLOCK_NUM }

/-- Quote row built by the handler.  The source function is syntactically
broken (its parameter has no name, and its status field is written as a
payment_type match over an out-of-scope receipt); this reconstruction copies
the quote message's fields the way every sibling get_new function does. -/
def get_new_quote (quote : QuoteProto) (block : Block) : NewQuote :=
  { bond_id := quote.bond_id
    organization_id := quote.organization_id
    ask_price := quote.ask_price
    ask_qty := quote.ask_qty
    bid_price := quote.bid_price
    bid_qty := quote.bid_qty
    quote_id := quote.quote_id
    status := match quote.status with
      | .OPEN => .OPEN
      | .CLOSED => .CLOSED
    timestamp := quote.timestamp
    start_block_num := block.block_num
    end_block_num := MAX_BLOCK_NUM }

/-- Function parse_transaction of event_handler.rs: classify the address and
decode the value into one typed operation.  The source's match has no arm for
ANOTHER_FAMILY (its callers are expected to pre-filter foreign addresses),
and classification of a short address panics; both are rendered as errors. -/
def parse_transaction (state : StateChange) (block : Block) :
    Except String TransactionType :=
  match get_address_type state.address with
  | some .ORGANIZATION => do
      let org ← unpack_organization state.value
      .ok (.InsertOrganization (get_new_organization org block)
        (get_new_authorization org.authorizations block org.organization_id))
  | some .PARTICIPANT => do
      let participant ← unpack_participant state.value
      .ok (.InsertParticipant (get_new_participant participant block))
  | some .SETTLEMENT => do
      let settlement ← unpack_settlement state.value
      .ok (.InsertSettlement (get_new_settlement settlement block))
  | some .HOLDING =>
      match state.field_type with
      | .DELETE => .ok (.UpdateHolding state.address block.block_num MAX_BLOCK_NUM)
      | _ => do
          let holding ← unpack_holding state.value
          .ok (.InsertHolding (get_new_holding holding block state.address))
  | some .ORDER => do
      let order ← unpack_order state.value
      .ok (.InsertOrder (get_new_order order block))
  | some .BOND => do
      let bond ← unpack_bond state.value
      .ok (.InsertBond (get_new_bond bond block)
        (get_new_corporate_debt_ratings bond.corporate_debt_ratings block bond.bond_id))
  | some .RECEIPT => do
      let receipt ← unpack_receipt state.value
      .ok (.InsertReceipt (get_new_receipt receipt block))
  | some .QUOTE => do
      let quote ← unpack_quote state.value
      .ok (.InsertQuote (get_new_quote quote block))
  | some .ANOTHER_FAMILY => .error "unhandled address type"
  | none => .error "address slice out of bounds"

/-- The namespace regex of get_namespace_regex, applied as a filter: the
source's `Regex::new(r"^000000")` retains exactly the addresses that start
with the six literal characters 000000. -/
def namespace_regex_matches (address : String) : Bool :=
  "000000".data.isPrefixOf address.data

/-- Function parse_state_delta_events of event_handler.rs: concatenate the
state changes of every state-delta event (their protobuf unpacking is
external) and keep those whose address matches the namespace regex. -/
def parse_state_delta_events (state_change_lists : List (List StateChange)) :
    List StateChange :=
  state_change_lists.flatten.filter (fun sc => namespace_regex_matches sc.address)

/-- The transaction-building loop of parse_events: one parse_transaction per
retained state change, the first failure aborting via the ? operator. -/
def build_transactions (block : Block) : List StateChange →
    Except String (List TransactionType)
  | [] => .ok []
  | sc :: rest =>
      match parse_transaction sc block with
      | .error e => .error e
      | .ok t =>
          match build_transactions block rest with
          | .error e => .error e
          | .ok ts => .ok (t :: ts)

/-- Function parse_events of event_handler.rs, after the external unpacking
of the event list and of the block-commit attributes: filter the mutation
stream, build the full operation list, and only then execute it against the
store in one transaction. -/
def parse_events (db : Db) (block : Block)
    (state_change_lists : List (List StateChange)) : Except String Db :=
  match build_transactions block (parse_state_delta_events state_change_lists) with
  | .error e => .error e
  | .ok transactions => .ok (execute_transactions_in_block db transactions block)


/-! Supporting lemmas about the store operations. -/

theorem foldl_blocks_eq {β : Type} (f : Db → β → Db)
    (hf : ∀ db x, (f db x).blocks = db.blocks) :
    ∀ (l : List β) (db : Db), ((l.foldl f db).blocks = db.blocks) := by
  intro l
  induction l with
  | nil => intro db; rfl
  | cons a t ih => intro db; rw [List.foldl_cons, ih, hf]

theorem execute_transaction_blocks (db : Db) (t : TransactionType) :
    (execute_transaction db t).blocks = db.blocks := by
  cases t with
  | InsertBond bond rs =>
      exact foldl_blocks_eq insert_corp_dept_ratings (fun _ _ => rfl) rs (insert_bond db bond)
  | InsertOrganization org auths =>
      exact foldl_blocks_eq insert_authorization (fun _ _ => rfl) auths
        (insert_organization db org)
  | InsertHolding h => rfl
  | UpdateHolding a c m => rfl
  | InsertOrder o => rfl
  | InsertParticipant p => rfl
  | InsertQuote q => rfl
  | InsertSettlement st => rfl
  | InsertReceipt r => rfl

theorem foldl_execute_transaction_blocks (ts : List TransactionType) (db : Db) :
    ((ts.foldl execute_transaction db).blocks = db.blocks) :=
  foldl_blocks_eq execute_transaction execute_transaction_blocks ts db

theorem find?_append_none {α : Type} (p : α → Bool) (l1 l2 : List α)
    (h : l1.find? p = none) : (l1 ++ l2).find? p = l2.find? p := by
  induction l1 with
  | nil => rfl
  | cons a t ih =>
      cases hpa : p a with
      | false =>
          rw [List.find?_cons_of_neg _ (by simp [hpa])] at h
          rw [List.cons_append, List.find?_cons_of_neg _ (by simp [hpa])]
          exact ih h
      | true =>
          rw [List.find?_cons_of_pos _ hpa] at h
          exact absurd h (by simp)

theorem is_fork_eq_false (b1 b2 : Block) (h : b1.block_id = b2.block_id) :
    is_fork b1 b2 = false := by
  unfold is_fork
  rw [if_pos (by simp [h])]

theorem execute_duplicate (db : Db) (ts : List TransactionType) (b b' : Block)
    (hfind : get_block_if_exists db b.block_num = some b')
    (hid : b'.block_id = b.block_id) :
    execute_transactions_in_block db ts b = db := by
  simp only [execute_transactions_in_block, hfind]
  rw [is_fork_eq_false b' b hid]
  simp

theorem get_block_after_new (db : Db) (ts : List TransactionType) (b : Block)
    (h : get_block_if_exists db b.block_num = none) :
    get_block_if_exists (insert_block (ts.foldl execute_transaction db) b) b.block_num
      = some b := by
  unfold get_block_if_exists insert_block
  rw [show (ts.foldl execute_transaction db).blocks = db.blocks from
    foldl_execute_transaction_blocks ts db]
  rw [find?_append_none _ _ _ h, List.find?_cons_of_pos _ (by simp)]

theorem drop_fork_blocks (db : Db) (n : Int) :
    (drop_fork db n).blocks = db.blocks.filter (fun b => decide (b.block_num < n)) := rfl

theorem get_block_after_fork (db : Db) (ts : List TransactionType) (b : Block) :
    get_block_if_exists (insert_block (ts.foldl execute_transaction (drop_fork db b.block_num)) b)
      b.block_num = some b := by
  unfold get_block_if_exists insert_block
  rw [show (ts.foldl execute_transaction (drop_fork db b.block_num)).blocks
      = (drop_fork db b.block_num).blocks from
    foldl_execute_transaction_blocks ts (drop_fork db b.block_num)]
  rw [drop_fork_blocks]
  rw [find?_append_none _ _ _ (List.find?_eq_none.mpr (fun x hx => by
    have hlt : x.block_num < b.block_num := by
      have := List.of_mem_filter hx
      simpa using this
    simp
    omega))]
  rw [List.find?_cons_of_pos _ (by simp)]

theorem execute_fork (db : Db) (ts : List TransactionType) (b b' : Block)
    (hfind : get_block_if_exists db b.block_num = some b')
    (hid : ¬ b'.block_id = b.block_id) :
    execute_transactions_in_block db ts b =
      insert_block (ts.foldl execute_transaction (drop_fork db b.block_num)) b := by
  simp only [execute_transactions_in_block, hfind]
  have hf : is_fork b' b = true := by
    unfold is_fork
    rw [if_neg (by simpa using hid)]
  rw [hf]
  simp

theorem execute_new (db : Db) (ts : List TransactionType) (b : Block)
    (hfind : get_block_if_exists db b.block_num = none) :
    execute_transactions_in_block db ts b =
      insert_block (ts.foldl execute_transaction db) b := by
  simp only [execute_transactions_in_block, hfind]

/-- Claim C2: a duplicate block (same block_num, same block_id already
recorded) makes execute_transactions_in_block succeed while applying nothing
and leaving every table unchanged, and applying the same (block, operations)
pair twice always equals applying it once. -/
theorem C2_duplicate_idempotence (db : Db) (ts : List TransactionType) (b : Block) :
    ((∃ b', get_block_if_exists db b.block_num = some b' ∧ b'.block_id = b.block_id) →
      execute_transactions_in_block db ts b = db) ∧
    execute_transactions_in_block (execute_transactions_in_block db ts b) ts b =
      execute_transactions_in_block db ts b := by
  constructor
  · rintro ⟨b', hfind, hid⟩
    exact execute_duplicate db ts b b' hfind hid
  · cases hfind : get_block_if_exists db b.block_num with
    | none =>
        rw [execute_new db ts b hfind]
        exact execute_duplicate _ ts b b (get_block_after_new db ts b hfind) rfl
    | some b' =>
        by_cases hid : b'.block_id = b.block_id
        · rw [execute_duplicate db ts b b' hfind hid]
          exact execute_duplicate db ts b b' hfind hid
        · rw [execute_fork db ts b b' hfind hid]
          exact execute_duplicate _ ts b b (get_block_after_fork db ts b) rfl

theorem C2_witness :
    (∃ b', get_block_if_exists (insert_block emptyDb ⟨1, some "x"⟩) (1 : Int) = some b' ∧
        b'.block_id = (some "x" : Option String)) ∧
      execute_transactions_in_block (insert_block emptyDb ⟨1, some "x"⟩) []
        ⟨1, some "x"⟩ = insert_block emptyDb ⟨1, some "x"⟩ :=
  ⟨⟨⟨1, some "x"⟩, by decide, rfl⟩,
    (C2_duplicate_idempotence (insert_block emptyDb ⟨1, some "x"⟩) [] ⟨1, some "x"⟩).1
      ⟨⟨1, some "x"⟩, by decide, rfl⟩⟩


/-! Generic facts about drop_fork on one versioned table. -/

theorem drop_fork_table_start_end {α : Type} [ChainRecord α] (n : Int) (rows : List α) :
    ∀ r ∈ drop_fork_table n rows, ChainRecord.start_block_num r < n ∧
      (ChainRecord.end_block_num r = MAX_BLOCK_NUM ∨ ChainRecord.end_block_num r < n) := by
  intro r hr
  unfold drop_fork_table at hr
  obtain ⟨r0, hr0, rfl⟩ := List.mem_map.mp hr
  have hmem := List.mem_filter.mp hr0
  have hstart : ChainRecord.start_block_num r0 < n := by simpa using hmem.2
  by_cases hcond : n ≤ ChainRecord.end_block_num r0
  · rw [if_pos hcond]
    exact ⟨by rw [ChainRecord.start_set_end]; exact hstart,
      Or.inl (ChainRecord.end_set_end r0 MAX_BLOCK_NUM)⟩
  · rw [if_neg hcond]
    exact ⟨hstart, Or.inr (by omega)⟩

theorem drop_fork_table_mem_of {α : Type} [ChainRecord α] (n : Int) (rows : List α)
    (r0 : α) (h : r0 ∈ rows) (hs : ChainRecord.start_block_num r0 < n) :
    (if n ≤ ChainRecord.end_block_num r0 then ChainRecord.set_end r0 MAX_BLOCK_NUM else r0) ∈
      drop_fork_table n rows := by
  unfold drop_fork_table
  exact List.mem_map_of_mem _ (List.mem_filter.mpr ⟨h, by simpa using hs⟩)

/-! Concrete fork scenario of the specification: B1(num=2,id=a), B2(num=10,id=b),
then the forked B2-prime (num=10,id=c). -/

def c3org1 : NewOrganization :=
  ⟨"T", some "Communication", some "ATT", .TRADINGFIRM, 2, MAX_BLOCK_NUM⟩

def c3org2 : NewOrganization :=
  ⟨"T", some "Internet", some "ATT", .TRADINGFIRM, 10, MAX_BLOCK_NUM⟩

def c3B1 : Block := ⟨2, some "a"⟩

def c3B2 : Block := ⟨10, some "b"⟩

def c3B2x : Block := ⟨10, some "c"⟩

def c3db1 : Db := execute_transactions_in_block emptyDb [.InsertOrganization c3org1 []] c3B1

def c3db2 : Db := execute_transactions_in_block c3db1 [.InsertOrganization c3org2 []] c3B2

def c3db3 : Db := execute_transactions_in_block c3db2 [] c3B2x

/-- Claim C3: on a fork (same block_num, different block_id) the rollback runs
before the new block's operations: every versioned row with start_block_num
at or above the fork point is deleted, every surviving row closed at or above
it is reopened to MAX_BLOCK_NUM, every block row at or above it is deleted;
in the B1(2,a), B2(10,b), forked B2-prime(10,c) scenario the block table ends
as exactly B1 and B2-prime. -/
theorem C3_fork_rollback (db : Db) (ts : List TransactionType) (b b' : Block) (n : Int) :
    (get_block_if_exists db b.block_num = some b' → ¬ b'.block_id = b.block_id →
      execute_transactions_in_block db ts b =
        insert_block (ts.foldl execute_transaction (drop_fork db b.block_num)) b) ∧
    (∀ r ∈ (drop_fork db n).organizations,
      r.start_block_num < n ∧ (r.end_block_num = MAX_BLOCK_NUM ∨ r.end_block_num < n)) ∧
    (∀ r ∈ (drop_fork db n).participants,
      r.start_block_num < n ∧ (r.end_block_num = MAX_BLOCK_NUM ∨ r.end_block_num < n)) ∧
    (∀ r ∈ (drop_fork db n).authorizations,
      r.start_block_num < n ∧ (r.end_block_num = MAX_BLOCK_NUM ∨ r.end_block_num < n)) ∧
    (∀ r ∈ (drop_fork db n).bonds,
      r.start_block_num < n ∧ (r.end_block_num = MAX_BLOCK_NUM ∨ r.end_block_num < n)) ∧
    (∀ r ∈ (drop_fork db n).corporate_debt_ratings,
      r.start_block_num < n ∧ (r.end_block_num = MAX_BLOCK_NUM ∨ r.end_block_num < n)) ∧
    (∀ r ∈ (drop_fork db n).holdings,
      r.start_block_num < n ∧ (r.end_block_num = MAX_BLOCK_NUM ∨ r.end_block_num < n)) ∧
    (∀ r ∈ (drop_fork db n).orders,
      r.start_block_num < n ∧ (r.end_block_num = MAX_BLOCK_NUM ∨ r.end_block_num < n)) ∧
    (∀ r ∈ (drop_fork db n).quotes,
      r.start_block_num < n ∧ (r.end_block_num = MAX_BLOCK_NUM ∨ r.end_block_num < n)) ∧
    (∀ r ∈ (drop_fork db n).settlements,
      r.start_block_num < n ∧ (r.end_block_num = MAX_BLOCK_NUM ∨ r.end_block_num < n)) ∧
    (∀ r ∈ (drop_fork db n).receipts,
      r.start_block_num < n ∧ (r.end_block_num = MAX_BLOCK_NUM ∨ r.end_block_num < n)) ∧
    (∀ r ∈ db.organizations, r.start_block_num < n →
      (if n ≤ r.end_block_num then { r with end_block_num := MAX_BLOCK_NUM } else r) ∈
        (drop_fork db n).organizations) ∧
    (∀ r ∈ db.participants, r.start_block_num < n →
      (if n ≤ r.end_block_num then { r with end_block_num := MAX_BLOCK_NUM } else r) ∈
        (drop_fork db n).participants) ∧
    (∀ r ∈ db.authorizations, r.start_block_num < n →
      (if n ≤ r.end_block_num then { r with end_block_num := MAX_BLOCK_NUM } else r) ∈
        (drop_fork db n).authorizations) ∧
    (∀ r ∈ db.bonds, r.start_block_num < n →
      (if n ≤ r.end_block_num then { r with end_block_num := MAX_BLOCK_NUM } else r) ∈
        (drop_fork db n).bonds) ∧
    (∀ r ∈ db.holdings, r.start_block_num < n →
      (if n ≤ r.end_block_num then { r with end_block_num := MAX_BLOCK_NUM } else r) ∈
        (drop_fork db n).holdings) ∧
    (∀ blk ∈ (drop_fork db n).blocks, blk.block_num < n) ∧
    c3db3.blocks = [c3B1, c3B2x] ∧
    c3db3.organizations = [c3org1] := by
  refine ⟨execute_fork db ts b b',
    fun r hr => drop_fork_table_start_end n db.organizations r hr,
    fun r hr => drop_fork_table_start_end n db.participants r hr,
    fun r hr => drop_fork_table_start_end n db.authorizations r hr,
    fun r hr => drop_fork_table_start_end n db.bonds r hr,
    fun r hr => drop_fork_table_start_end n db.corporate_debt_ratings r hr,
    fun r hr => drop_fork_table_start_end n db.holdings r hr,
    fun r hr => drop_fork_table_start_end n db.orders r hr,
    fun r hr => drop_fork_table_start_end n db.quotes r hr,
    fun r hr => drop_fork_table_start_end n db.settlements r hr,
    fun r hr => drop_fork_table_start_end n db.receipts r hr,
    fun r hr hs => drop_fork_table_mem_of n db.organizations r hr hs,
    fun r hr hs => drop_fork_table_mem_of n db.participants r hr hs,
    fun r hr hs => drop_fork_table_mem_of n db.authorizations r hr hs,
    fun r hr hs => drop_fork_table_mem_of n db.bonds r hr hs,
    fun r hr hs => drop_fork_table_mem_of n db.holdings r hr hs,
    fun blk hblk => by simpa using (List.mem_filter.mp hblk).2,
    by decide, by decide⟩

theorem C3_witness :
    execute_transactions_in_block c3db2 [] c3B2x =
      insert_block (([] : List TransactionType).foldl execute_transaction
        (drop_fork c3db2 c3B2x.block_num)) c3B2x :=
  (C3_fork_rollback c3db2 [] c3B2x c3B2 0).1 (by decide) (by decide)

/-! Concrete two-block run inserting the same bond natural key twice. -/

def openBond1 : NewBond := ⟨"B", "T", 0, 0, 0, 0, 0, 0, .FIXED, .QUARTERLY, 1, MAX_BLOCK_NUM⟩

def openBond2 : NewBond := ⟨"B", "T", 0, 0, 0, 0, 0, 0, .FIXED, .QUARTERLY, 2, MAX_BLOCK_NUM⟩

def bondDb2 : Db :=
  execute_transactions_in_block
    (execute_transactions_in_block emptyDb [.InsertBond openBond1 []] ⟨1, some "a"⟩)
    [.InsertBond openBond2 []] ⟨2, some "b"⟩

/-- Claim C1, counterexample: after two blocks, each inserting a bond with the
same natural key "B" through execute_transactions_in_block, the bond table
holds two rows for that key both with end_block_num = MAX_BLOCK_NUM, and
their validity ranges overlap — insert_bond never closes the previous open
version. -/
theorem C1_counterexample :
    bondDb2.bonds = [openBond1, openBond2] ∧
    (bondDb2.bonds.filter
      (fun r => r.bond_id == "B" && r.end_block_num == MAX_BLOCK_NUM)).length = 2 ∧
    max openBond1.start_block_num openBond2.start_block_num <
      min openBond1.end_block_num openBond2.end_block_num := by
  refine ⟨by decide, by decide, by decide⟩

/-- Claim C4, counterexample: the insert of openBond2 (same natural key as
the already-open openBond1) is applied by the store without first closing the
open row — openBond1 survives with end_block_num still MAX_BLOCK_NUM. -/
theorem C4_counterexample :
    openBond2.bond_id = openBond1.bond_id ∧
    openBond1 ∈ bondDb2.bonds ∧
    openBond1.end_block_num = MAX_BLOCK_NUM := by
  refine ⟨rfl, by decide, rfl⟩


/-- Claim C4, amended: the close-before-insert step runs on organization,
participant and authorization inserts — the open row with the same natural
key is closed (its end_block_num set to the new row's start_block_num, via
the end filter the source passes) before the new row is appended, and the
step is a no-op when no matching open row exists; the bond, corporate-debt-
rating, holding, order, quote, settlement and receipt inserts append the new
row without modifying any existing row. -/
theorem C4_amended_close_before_insert (db : Db) (org : NewOrganization)
    (participant : NewParticipant) (auth : NewAuthorization) (bond : NewBond)
    (rating : NewCorporateDebtRating) (holding : NewHolding) (order : NewOrder)
    (quote : NewQuote) (settlement : NewSettlement) (receipt : NewReceipt) :
    ((∀ r ∈ db.organizations,
        ¬(r.end_block_num = org.end_block_num ∧ r.organization_id = org.organization_id)) →
      (insert_organization db org).organizations = db.organizations ++ [org]) ∧
    (∀ r ∈ db.organizations, r.end_block_num = org.end_block_num →
      r.organization_id = org.organization_id →
      { r with end_block_num := org.start_block_num } ∈
        (insert_organization db org).organizations) ∧
    org ∈ (insert_organization db org).organizations ∧
    ((∀ r ∈ db.participants,
        ¬(r.end_block_num = participant.end_block_num ∧ r.public_key = participant.public_key)) →
      (insert_participant db participant).participants = db.participants ++ [participant]) ∧
    (∀ r ∈ db.participants, r.end_block_num = participant.end_block_num →
      r.public_key = participant.public_key →
      { r with end_block_num := participant.start_block_num } ∈
        (insert_participant db participant).participants) ∧
    participant ∈ (insert_participant db participant).participants ∧
    ((∀ r ∈ db.authorizations,
        ¬(r.organization_id = auth.organization_id ∧
          r.participant_public_key = auth.participant_public_key ∧
          r.end_block_num = MAX_BLOCK_NUM)) →
      (insert_authorization db auth).authorizations = db.authorizations ++ [auth]) ∧
    (∀ r ∈ db.authorizations, r.organization_id = auth.organization_id →
      r.participant_public_key = auth.participant_public_key →
      r.end_block_num = MAX_BLOCK_NUM →
      { r with end_block_num := auth.start_block_num } ∈
        (insert_authorization db auth).authorizations) ∧
    auth ∈ (insert_authorization db auth).authorizations ∧
    (∀ r ∈ db.bonds, r ∈ (insert_bond db bond).bonds) ∧
    (∀ r ∈ db.corporate_debt_ratings,
      r ∈ (insert_corp_dept_ratings db rating).corporate_debt_ratings) ∧
    (∀ r ∈ db.holdings, r ∈ (insert_holding db holding).holdings) ∧
    (∀ r ∈ db.orders, r ∈ (insert_order db order).orders) ∧
    (∀ r ∈ db.quotes, r ∈ (insert_quote db quote).quotes) ∧
    (∀ r ∈ db.settlements, r ∈ (insert_settlement db settlement).settlements) ∧
    (∀ r ∈ db.receipts, r ∈ (insert_receipt db receipt).receipts) := by
  refine ⟨?_, ?_, ?_, ?_, ?_, ?_, ?_, ?_, ?_,
    fun r hr => List.mem_append_left _ hr, fun r hr => List.mem_append_left _ hr,
    fun r hr => List.mem_append_left _ hr, fun r hr => List.mem_append_left _ hr,
    fun r hr => List.mem_append_left _ hr, fun r hr => List.mem_append_left _ hr,
    fun r hr => List.mem_append_left _ hr⟩
  · intro h
    show (db.organizations.map _) ++ [org] = db.organizations ++ [org]
    rw [List.map_congr_left (fun r hr => if_neg (h r hr))]
    simp
  · intro r hr he hid
    apply List.mem_append_left
    rw [show { r with end_block_num := org.start_block_num } =
      (fun r0 : NewOrganization =>
        if r0.end_block_num = org.end_block_num ∧ r0.organization_id = org.organization_id
        then { r0 with end_block_num := org.start_block_num } else r0) r
      from (if_pos ⟨he, hid⟩).symm]
    exact List.mem_map_of_mem _ hr
  · exact List.mem_append_right _ (List.mem_singleton.mpr rfl)
  · intro h
    show (db.participants.map _) ++ [participant] = db.participants ++ [participant]
    rw [List.map_congr_left (fun r hr => if_neg (h r hr))]
    simp
  · intro r hr he hid
    apply List.mem_append_left
    rw [show { r with end_block_num := participant.start_block_num } =
      (fun r0 : NewParticipant =>
        if r0.end_block_num = participant.end_block_num ∧ r0.public_key = participant.public_key
        then { r0 with end_block_num := participant.start_block_num } else r0) r
      from (if_pos ⟨he, hid⟩).symm]
    exact List.mem_map_of_mem _ hr
  · exact List.mem_append_right _ (List.mem_singleton.mpr rfl)
  · intro h
    show (db.authorizations.map _) ++ [auth] = db.authorizations ++ [auth]
    rw [List.map_congr_left (fun r hr => if_neg (h r hr))]
    simp
  · intro r hr ho hp he
    apply List.mem_append_left
    rw [show { r with end_block_num := auth.start_block_num } =
      (fun r0 : NewAuthorization =>
        if r0.organization_id = auth.organization_id ∧
            r0.participant_public_key = auth.participant_public_key ∧
            r0.end_block_num = MAX_BLOCK_NUM
        then { r0 with end_block_num := auth.start_block_num } else r0) r
      from (if_pos ⟨ho, hp, he⟩).symm]
    exact List.mem_map_of_mem _ hr
  · exact List.mem_append_right _ (List.mem_singleton.mpr rfl)

def wOrg : NewOrganization := ⟨"T", none, none, .TRADINGFIRM, 1, MAX_BLOCK_NUM⟩

def wPart : NewParticipant := ⟨"pk", "T", "u", 1, MAX_BLOCK_NUM⟩

def wAuth : NewAuthorization := ⟨"pk", "T", .TRADER, 1, MAX_BLOCK_NUM⟩

def wRating : NewCorporateDebtRating := ⟨"B", "F", "BBB", 1, MAX_BLOCK_NUM⟩

def wHolding : NewHolding := ⟨"T", "B", .BOND, 0, 1, MAX_BLOCK_NUM, "addr"⟩

def wOrder : NewOrder :=
  ⟨"B", "T", "1", none, none, 0, none, .OPEN, .SELL, .MARKET, 0, 1, MAX_BLOCK_NUM⟩

def wQuote : NewQuote := ⟨"B", "T", 0, 0, 0, 0, "q", .OPEN, 0, 1, MAX_BLOCK_NUM⟩

def wSettlement : NewSettlement := ⟨"o", "T", "G", .SELL, 0, 0, 1, MAX_BLOCK_NUM⟩

def wReceipt : NewReceipt := ⟨"B", "T", .COUPON, 0, 0, 0, 1, MAX_BLOCK_NUM⟩

theorem C4_witness :
    (insert_organization emptyDb wOrg).organizations = emptyDb.organizations ++ [wOrg] :=
  (C4_amended_close_before_insert emptyDb wOrg wPart wAuth openBond1 wRating wHolding
    wOrder wQuote wSettlement wReceipt).1 (fun r hr => absurd hr (List.not_mem_nil r))

/-! Concrete holding scenario: insert at block 2, DELETE mutation at block 9. -/

def wHoldingRow : NewHolding :=
  ⟨"T", "B", .BOND, 5, 2, MAX_BLOCK_NUM, make_holding_address "T" "B"⟩

def c8db1 : Db := execute_transactions_in_block emptyDb [.InsertHolding wHoldingRow] ⟨2, some "a"⟩

def c8delete : StateChange := ⟨make_holding_address "T" "B", .garbage, .DELETE⟩

def c8db2 : Db :=
  execute_transactions_in_block c8db1
    [.UpdateHolding (make_holding_address "T" "B") 9 MAX_BLOCK_NUM] ⟨9, some "b"⟩

/-- Claim C8: a HOLDING mutation of kind DELETE produces a close-only
operation carrying just the address and block number with no payload decode
(it succeeds even on an undecodable value); applying it closes the open
holding row found by address and inserts nothing; the concrete insert-at-2
then delete-at-9 scenario ends with that row closed at 9 and no new row. -/
theorem C8_holding_delete (state : StateChange) (block : Block) (db : Db)
    (a : String) (cur : Int) :
    (get_address_type state.address = some .HOLDING → state.field_type = .DELETE →
      parse_transaction state block =
        .ok (.UpdateHolding state.address block.block_num MAX_BLOCK_NUM)) ∧
    (execute_transaction db (.UpdateHolding a cur MAX_BLOCK_NUM)).holdings.length =
      db.holdings.length ∧
    (∀ r ∈ db.holdings, r.address = a → r.end_block_num = MAX_BLOCK_NUM →
      { r with end_block_num := cur } ∈
        (execute_transaction db (.UpdateHolding a cur MAX_BLOCK_NUM)).holdings) ∧
    (∀ r ∈ db.holdings, ¬(r.address = a ∧ r.end_block_num = MAX_BLOCK_NUM) →
      r ∈ (execute_transaction db (.UpdateHolding a cur MAX_BLOCK_NUM)).holdings) ∧
    parse_transaction c8delete ⟨9, some "b"⟩ =
      .ok (.UpdateHolding (make_holding_address "T" "B") 9 MAX_BLOCK_NUM) ∧
    c8db2.holdings = [{ wHoldingRow with end_block_num := 9 }] ∧
    c8db2.holdings.length = 1 := by
  refine ⟨?_, ?_, ?_, ?_, ?_, by decide, by decide⟩
  · intro hclass hdel
    simp only [parse_transaction, hclass, hdel]
  · show (db.holdings.map _).length = db.holdings.length
    rw [List.length_map]
  · intro r hr ha he
    show _ ∈ db.holdings.map _
    rw [show { r with end_block_num := cur } =
      (fun r0 : NewHolding =>
        if r0.address = a ∧ r0.end_block_num = MAX_BLOCK_NUM
        then { r0 with end_block_num := cur } else r0) r
      from (if_pos ⟨ha, he⟩).symm]
    exact List.mem_map_of_mem _ hr
  · intro r hr hn
    show _ ∈ db.holdings.map _
    rw [show r =
      (fun r0 : NewHolding =>
        if r0.address = a ∧ r0.end_block_num = MAX_BLOCK_NUM
        then { r0 with end_block_num := cur } else r0) r
      from (if_neg hn).symm]
    exact List.mem_map_of_mem _ hr
  · have hc : get_address_type c8delete.address = some AddressSpace.HOLDING := by decide
    simp only [parse_transaction, hc]
    rfl

theorem C8_witness :
    parse_transaction c8delete ⟨9, some "b"⟩ =
      .ok (.UpdateHolding c8delete.address (9 : Int) MAX_BLOCK_NUM) :=
  (C8_holding_delete c8delete ⟨9, some "b"⟩ emptyDb "x" 0).1 (by decide) rfl


theorem build_transactions_error (block : Block) :
    ∀ (l : List StateChange) (sc : StateChange), sc ∈ l →
      (∃ e, parse_transaction sc block = .error e) →
      ∃ e', build_transactions block l = .error e' := by
  intro l
  induction l with
  | nil => intro sc h _; cases h
  | cons a t ih =>
      intro sc hmem herr
      obtain ⟨e, he⟩ := herr
      rcases List.mem_cons.mp hmem with heq | hmem'
      · subst heq
        exact ⟨e, by simp [build_transactions, he]⟩
      · cases hp : parse_transaction a block with
        | error e2 => exact ⟨e2, by simp [build_transactions, hp]⟩
        | ok t0 =>
            obtain ⟨e', he'⟩ := ih sc hmem' ⟨e, he⟩
            exact ⟨e', by simp [build_transactions, hp, he']⟩

/-- Claim C5: per-block application is all-or-nothing with respect to decode
failures — the whole operation list is built from the retained mutations
before the store is touched, so if any retained state change fails to parse
(for example operation 3 of 5), parse_events surfaces an error and produces
no store state at all: the store is left exactly as it was. -/
theorem C5_decode_failure_aborts (db : Db) (block : Block)
    (lists : List (List StateChange)) (sc : StateChange) :
    sc ∈ parse_state_delta_events lists →
    (∃ e, parse_transaction sc block = .error e) →
    ∃ e', parse_events db block lists = .error e' := by
  intro hmem herr
  obtain ⟨e', he'⟩ := build_transactions_error block _ sc hmem herr
  exact ⟨e', by simp [parse_events, he']⟩

def c5good : StateChange := ⟨"000000e77b14", .garbage, .DELETE⟩

def c5bad : StateChange := ⟨"000000af3a1b", .garbage, .SET⟩

def c5lists : List (List StateChange) := [[c5good, c5good, c5bad, c5good, c5good]]

theorem C5_witness :
    c5bad ∈ parse_state_delta_events c5lists ∧
      ∃ e', parse_events emptyDb ⟨1, some "a"⟩ c5lists = .error e' :=
  ⟨by decide, C5_decode_failure_aborts emptyDb ⟨1, some "a"⟩ c5lists c5bad (by decide)
    ⟨"protobuf decode error", by
      have hc : get_address_type c5bad.address = some AddressSpace.ORGANIZATION := by decide
      simp only [parse_transaction, hc]
      rfl⟩⟩

/-- Claim C9 is refuted by the code: the filter in parse_state_delta_events
keeps the addresses matching the hard-coded regex ^000000, but the family
namespace computed by get_bond_namespace is d16f4b, so a genuine family
address (organization id "T") is dropped and never reaches interpretation,
while a foreign address that merely starts with 000000 is retained — and,
carrying the organization type tag, is classified as ORGANIZATION, not as
ANOTHER_FAMILY, when it reaches the interpreter. -/
theorem C9_namespace_filter_bug :
    get_bond_namespace = "d16f4b" ∧
    namespace_regex_matches (make_organization_address "T") = false ∧
    parse_state_delta_events [[⟨make_organization_address "T", .garbage, .SET⟩]] = [] ∧
    parse_state_delta_events [[⟨"000000af3a1bxx", .garbage, .SET⟩]] =
      [⟨"000000af3a1bxx", .garbage, .SET⟩] ∧
    get_address_type "000000af3a1bxx" = some .ORGANIZATION := by
  refine ⟨hash_FAMILY_NAMESPACE, by decide, by decide, by decide, by decide⟩


/-! Generic theory of one versioned table, used to settle the non-overlap
invariant.  `vstart`, `vend` and `vset` abbreviate the ChainRecord fields. -/

def vstart {α : Type} [ChainRecord α] (r : α) : Int := ChainRecord.start_block_num r

def vend {α : Type} [ChainRecord α] (r : α) : Int := ChainRecord.end_block_num r

def vset {α : Type} [ChainRecord α] (r : α) (v : Int) : α := ChainRecord.set_end r v

theorem vstart_vset {α : Type} [ChainRecord α] (r : α) (v : Int) :
    vstart (vset r v) = vstart r := ChainRecord.start_set_end r v

theorem vend_vset {α : Type} [ChainRecord α] (r : α) (v : Int) :
    vend (vset r v) = v := ChainRecord.end_set_end r v

/-- Two versioned rows with intersecting validity ranges [start, end). -/
def rangesOverlap {α : Type} [ChainRecord α] (r1 r2 : α) : Prop :=
  max (vstart r1) (vstart r2) < min (vend r1) (vend r2)

def keyNoTwoOpen {α K : Type} [ChainRecord α] (key : α → K) (r1 r2 : α) : Prop :=
  key r1 = key r2 → ¬(vend r1 = MAX_BLOCK_NUM ∧ vend r2 = MAX_BLOCK_NUM)

def keyNoOverlap {α K : Type} [ChainRecord α] (key : α → K) (r1 r2 : α) : Prop :=
  key r1 = key r2 → ¬ rangesOverlap r1 r2

/-- Invariant of one versioned table under the bound `n` (the highest block
applied so far): every start is at most n, every closed end is at most n, no
key has two open rows, and rows of one key never overlap. -/
structure TInv {α K : Type} [ChainRecord α] (key : α → K) (n : Int) (rows : List α) : Prop where
  start_le : ∀ r ∈ rows, vstart r ≤ n
  end_le : ∀ r ∈ rows, vend r = MAX_BLOCK_NUM ∨ vend r ≤ n
  two_open : rows.Pairwise (keyNoTwoOpen key)
  no_overlap : rows.Pairwise (keyNoOverlap key)

theorem tinv_nil {α K : Type} [ChainRecord α] (key : α → K) (n : Int) :
    TInv key n ([] : List α) :=
  ⟨fun r hr => absurd hr (List.not_mem_nil r), fun r hr => absurd hr (List.not_mem_nil r),
    List.Pairwise.nil, List.Pairwise.nil⟩

theorem tinv_mono {α K : Type} [ChainRecord α] (key : α → K) {m n : Int} (hmn : m ≤ n)
    {rows : List α} (h : TInv key m rows) : TInv key n rows :=
  ⟨fun r hr => le_trans (h.start_le r hr) hmn,
    fun r hr => (h.end_le r hr).imp id (fun hle => le_trans hle hmn),
    h.two_open, h.no_overlap⟩

/-- Preservation of the table invariant by the close-then-insert pattern of
insert_organization, insert_participant and insert_authorization: every open
row of the new row's key is closed at n, then the new open row is appended. -/
theorem tinv_close_insert {α K : Type} [ChainRecord α] [DecidableEq K] (key : α → K)
    (hkey : ∀ (r : α) (v : Int), key (vset r v) = key r)
    (n : Int) (hn : n < MAX_BLOCK_NUM) (rows : List α) (newr : α)
    (hstart : vstart newr = n) (hend : vend newr = MAX_BLOCK_NUM)
    (f : α → α)
    (hf : ∀ r, f r = if vend r = MAX_BLOCK_NUM ∧ key r = key newr then vset r n else r)
    (hinv : TInv key n rows) :
    TInv key n (rows.map f ++ [newr]) := by
  have hkeyf : ∀ r, key (f r) = key r := by
    intro r
    rw [hf r]
    by_cases hc : vend r = MAX_BLOCK_NUM ∧ key r = key newr
    · rw [if_pos hc, hkey]
    · rw [if_neg hc]
  have hstartf : ∀ r, vstart (f r) = vstart r := by
    intro r
    rw [hf r]
    by_cases hc : vend r = MAX_BLOCK_NUM ∧ key r = key newr
    · rw [if_pos hc, vstart_vset]
    · rw [if_neg hc]
  have hendf : ∀ r, vend (f r) = n ∨ vend (f r) = vend r := by
    intro r
    rw [hf r]
    by_cases hc : vend r = MAX_BLOCK_NUM ∧ key r = key newr
    · rw [if_pos hc, vend_vset]; exact Or.inl rfl
    · rw [if_neg hc]; exact Or.inr rfl
  have hshrink : ∀ r, vend (f r) ≤ vend r := by
    intro r
    by_cases hc : vend r = MAX_BLOCK_NUM ∧ key r = key newr
    · rw [hf r, if_pos hc, vend_vset, hc.1]; omega
    · rw [hf r, if_neg hc]
  have hclosed : ∀ r, key r = key newr →
      vend (f r) ≤ n ∨ (vend r ≠ MAX_BLOCK_NUM ∧ f r = r) := by
    intro r hk
    by_cases ho : vend r = MAX_BLOCK_NUM
    · left
      rw [hf r, if_pos ⟨ho, hk⟩, vend_vset]
    · right
      exact ⟨ho, by rw [hf r, if_neg (fun hc => ho hc.1)]⟩
  constructor
  · intro r' hr'
    rcases List.mem_append.mp hr' with hmem | hmem
    · obtain ⟨r, hr, rfl⟩ := List.mem_map.mp hmem
      rw [hstartf r]
      exact hinv.start_le r hr
    · rw [List.mem_singleton.mp hmem]
      exact le_of_eq hstart
  · intro r' hr'
    rcases List.mem_append.mp hr' with hmem | hmem
    · obtain ⟨r, hr, rfl⟩ := List.mem_map.mp hmem
      rcases hendf r with h1 | h1
      · exact Or.inr (le_of_eq h1)
      · rw [h1]; exact hinv.end_le r hr
    · rw [List.mem_singleton.mp hmem]
      exact Or.inl hend
  · rw [List.pairwise_append]
    refine ⟨List.pairwise_map.mpr (hinv.two_open.imp ?_), List.pairwise_singleton _ _, ?_⟩
    · intro a b hab keq ho
      obtain ⟨ho1, ho2⟩ := ho
      have hoa : vend a = MAX_BLOCK_NUM := by
        rcases hendf a with h1 | h1
        · rw [h1] at ho1; omega
        · rw [← h1]; exact ho1
      have hob : vend b = MAX_BLOCK_NUM := by
        rcases hendf b with h1 | h1
        · rw [h1] at ho2; omega
        · rw [← h1]; exact ho2
      exact hab (by rw [← hkeyf a, ← hkeyf b, keq]) ⟨hoa, hob⟩
    · intro a' ha' b hb keq ho
      obtain ⟨ho1, ho2⟩ := ho
      obtain ⟨r, hr, rfl⟩ := List.mem_map.mp ha'
      have hbn : b = newr := List.mem_singleton.mp hb
      have hk : key r = key newr := by rw [← hkeyf r, keq, hbn]
      rcases hclosed r hk with hc | hc
      · omega
      · rw [hc.2] at ho1
        exact hc.1 ho1
  · rw [List.pairwise_append]
    refine ⟨List.pairwise_map.mpr (hinv.no_overlap.imp ?_), List.pairwise_singleton _ _, ?_⟩
    · intro a b hab keq hov
      have hka : key a = key b := by rw [← hkeyf a, ← hkeyf b, keq]
      apply hab hka
      unfold rangesOverlap at hov ⊢
      rw [hstartf a, hstartf b] at hov
      rw [lt_min_iff] at hov ⊢
      exact ⟨lt_of_lt_of_le hov.1 (hshrink a), lt_of_lt_of_le hov.2 (hshrink b)⟩
    · intro a' ha' b hb keq hov
      obtain ⟨r, hr, rfl⟩ := List.mem_map.mp ha'
      have hbn : b = newr := List.mem_singleton.mp hb
      have hk : key r = key newr := by rw [← hkeyf r, keq, hbn]
      have hle : vend (f r) ≤ n := by
        rcases hclosed r hk with hc | hc
        · exact hc
        · rw [hc.2]
          rcases hinv.end_le r hr with h1 | h1
          · exact absurd h1 hc.1
          · exact h1
      unfold rangesOverlap at hov
      rw [hbn, hstart, hend] at hov
      have h1 := min_le_left (vend (f r)) MAX_BLOCK_NUM
      have h2 := le_max_right (vstart (f r)) n
      omega

/-- Preservation of the table invariant by drop_fork_table at the fork point
m: only the pairwise non-overlap of the previous table is needed. -/
theorem tinv_drop {α K : Type} [ChainRecord α] (key : α → K)
    (hkey : ∀ (r : α) (v : Int), key (vset r v) = key r)
    (m : Int) (hm : m < MAX_BLOCK_NUM) (rows : List α)
    (hno : rows.Pairwise (keyNoOverlap key)) :
    TInv key m (drop_fork_table m rows) := by
  have hg : ∀ r : α,
      (if m ≤ ChainRecord.end_block_num r then ChainRecord.set_end r MAX_BLOCK_NUM else r) =
        (if m ≤ vend r then vset r MAX_BLOCK_NUM else r) := fun r => rfl
  constructor
  · exact fun r hr => le_of_lt (drop_fork_table_start_end m rows r hr).1
  · exact fun r hr => (drop_fork_table_start_end m rows r hr).2.imp id
      (fun h => le_of_lt h)
  · unfold drop_fork_table
    apply List.pairwise_map.mpr
    apply List.Pairwise.imp_of_mem ?_ (hno.filter _)
    intro a b ha hb hab keq ho
    have hsa : vstart a < m := by simpa using (List.mem_filter.mp ha).2
    have hsb : vstart b < m := by simpa using (List.mem_filter.mp hb).2
    have hma : m ≤ vend a := by
      by_cases hc : m ≤ vend a
      · exact hc
      · exfalso
        rw [hg a, if_neg hc] at ho
        exact hc (le_of_lt (lt_of_lt_of_le hm (le_of_eq ho.1.symm)))
    have hmb : m ≤ vend b := by
      by_cases hc : m ≤ vend b
      · exact hc
      · exfalso
        rw [hg b, if_neg hc] at ho
        exact hc (le_of_lt (lt_of_lt_of_le hm (le_of_eq ho.2.symm)))
    have hka : key a = key b := by
      rw [hg a, if_pos hma, hg b, if_pos hmb, hkey, hkey] at keq
      exact keq
    apply hab hka
    unfold rangesOverlap
    rw [lt_min_iff]
    exact ⟨lt_of_lt_of_le (max_lt hsa hsb) hma, lt_of_lt_of_le (max_lt hsa hsb) hmb⟩
  · unfold drop_fork_table
    apply List.pairwise_map.mpr
    apply List.Pairwise.imp_of_mem ?_ (hno.filter _)
    intro a b ha hb hab keq hov
    have hsa : vstart a < m := by simpa using (List.mem_filter.mp ha).2
    have hsb : vstart b < m := by simpa using (List.mem_filter.mp hb).2
    by_cases hca : m ≤ vend a <;> by_cases hcb : m ≤ vend b
    · exact hab (by rw [hg a, if_pos hca, hg b, if_pos hcb, hkey, hkey] at keq; exact keq)
        (by
          unfold rangesOverlap
          rw [lt_min_iff]
          exact ⟨lt_of_lt_of_le (max_lt hsa hsb) hca, lt_of_lt_of_le (max_lt hsa hsb) hcb⟩)
    · apply hab (by rw [hg a, if_pos hca, hg b, if_neg hcb, hkey] at keq; exact keq)
      rw [hg a, if_pos hca, hg b, if_neg hcb] at hov
      unfold rangesOverlap at hov ⊢
      rw [vstart_vset, vend_vset] at hov
      rw [lt_min_iff] at hov ⊢
      exact ⟨lt_of_lt_of_le hov.2 (by omega), hov.2⟩
    · apply hab (by rw [hg a, if_neg hca, hg b, if_pos hcb, hkey] at keq; exact keq)
      rw [hg a, if_neg hca, hg b, if_pos hcb] at hov
      unfold rangesOverlap at hov ⊢
      rw [vstart_vset, vend_vset] at hov
      rw [lt_min_iff] at hov ⊢
      exact ⟨hov.1, lt_of_lt_of_le hov.1 (by omega)⟩
    · rw [hg a, if_neg hca, hg b, if_neg hcb] at hov keq
      exact hab keq hov


/-! The natural keys of the three tables whose inserts close open versions. -/

def orgKey (r : NewOrganization) : String := r.organization_id

def partKey (r : NewParticipant) : String := r.public_key

def authKey (r : NewAuthorization) : String × String :=
  (r.organization_id, r.participant_public_key)

def DbTInv (n : Int) (db : Db) : Prop :=
  TInv orgKey n db.organizations ∧ TInv partKey n db.participants ∧
    TInv authKey n db.authorizations

theorem dbtinv_mono {m n : Int} (hmn : m ≤ n) {db : Db} (h : DbTInv m db) : DbTInv n db :=
  ⟨tinv_mono orgKey hmn h.1, tinv_mono partKey hmn h.2.1, tinv_mono authKey hmn h.2.2⟩

theorem dbtinv_of_tables_eq {n : Int} {db db' : Db}
    (ho : db'.organizations = db.organizations)
    (hp : db'.participants = db.participants)
    (ha : db'.authorizations = db.authorizations)
    (h : DbTInv n db) : DbTInv n db' :=
  ⟨by rw [ho]; exact h.1, by rw [hp]; exact h.2.1, by rw [ha]; exact h.2.2⟩

theorem foldl_proj_eq {β γ : Type} (proj : Db → γ) (f : Db → β → Db)
    (hf : ∀ db x, proj (f db x) = proj db) :
    ∀ (l : List β) (db : Db), proj (l.foldl f db) = proj db := by
  intro l
  induction l with
  | nil => intro db; rfl
  | cons a t ih => intro db; rw [List.foldl_cons, ih, hf]

theorem tinv_insert_organization (n : Int) (hn : n < MAX_BLOCK_NUM) (db : Db)
    (org : NewOrganization) (hs : org.start_block_num = n)
    (he : org.end_block_num = MAX_BLOCK_NUM)
    (hinv : TInv orgKey n db.organizations) :
    TInv orgKey n (insert_organization db org).organizations := by
  show TInv orgKey n (db.organizations.map _ ++ [org])
  refine tinv_close_insert orgKey (fun r v => rfl) n hn db.organizations org hs he _ ?_ hinv
  intro r
  rw [he, hs]
  rfl

theorem tinv_insert_participant (n : Int) (hn : n < MAX_BLOCK_NUM) (db : Db)
    (participant : NewParticipant) (hs : participant.start_block_num = n)
    (he : participant.end_block_num = MAX_BLOCK_NUM)
    (hinv : TInv partKey n db.participants) :
    TInv partKey n (insert_participant db participant).participants := by
  show TInv partKey n (db.participants.map _ ++ [participant])
  refine tinv_close_insert partKey (fun r v => rfl) n hn db.participants participant
    hs he _ ?_ hinv
  intro r
  rw [he, hs]
  rfl

theorem tinv_insert_authorization (n : Int) (hn : n < MAX_BLOCK_NUM) (db : Db)
    (auth : NewAuthorization) (hs : auth.start_block_num = n)
    (he : auth.end_block_num = MAX_BLOCK_NUM)
    (hinv : TInv authKey n db.authorizations) :
    TInv authKey n (insert_authorization db auth).authorizations := by
  show TInv authKey n (db.authorizations.map _ ++ [auth])
  refine tinv_close_insert authKey (fun r v => rfl) n hn db.authorizations auth
    hs he _ ?_ hinv
  intro r
  rw [hs]
  refine if_congr ?_ rfl rfl
  constructor
  · rintro ⟨h1, h2, h3⟩
    refine ⟨h3, ?_⟩
    simp [authKey, h1, h2]
  · rintro ⟨h3, hk⟩
    simp only [authKey, Prod.mk.injEq] at hk
    exact ⟨hk.1, hk.2, h3⟩

theorem tinv_foldl_insert_authorization (n : Int) (hn : n < MAX_BLOCK_NUM) :
    ∀ (l : List NewAuthorization) (db : Db),
      (∀ a ∈ l, a.start_block_num = n ∧ a.end_block_num = MAX_BLOCK_NUM) →
      TInv authKey n db.authorizations →
      TInv authKey n ((l.foldl insert_authorization db).authorizations) := by
  intro l
  induction l with
  | nil => intro db _ h; exact h
  | cons a t ih =>
      intro db hwf h
      rw [List.foldl_cons]
      exact ih (insert_authorization db a) (fun x hx => hwf x (List.mem_cons_of_mem a hx))
        (tinv_insert_authorization n hn db a (hwf a (List.mem_cons_self a t)).1
          (hwf a (List.mem_cons_self a t)).2 h)

/-- Well-formed operations of the block at height n: every row they carry is
stamped start_block_num = n and end_block_num = MAX_BLOCK_NUM, and a holding
close carries (n, MAX_BLOCK_NUM) — exactly what event_handler.rs builds. -/
def wf_transaction (n : Int) : TransactionType → Prop
  | .InsertBond bond rs => bond.start_block_num = n ∧ bond.end_block_num = MAX_BLOCK_NUM ∧
      ∀ r ∈ rs, r.start_block_num = n ∧ r.end_block_num = MAX_BLOCK_NUM
  | .InsertHolding h => h.start_block_num = n ∧ h.end_block_num = MAX_BLOCK_NUM
  | .UpdateHolding _ cur mx => cur = n ∧ mx = MAX_BLOCK_NUM
  | .InsertOrder o => o.start_block_num = n ∧ o.end_block_num = MAX_BLOCK_NUM
  | .InsertOrganization org auths =>
      org.start_block_num = n ∧ org.end_block_num = MAX_BLOCK_NUM ∧
      ∀ a ∈ auths, a.start_block_num = n ∧ a.end_block_num = MAX_BLOCK_NUM
  | .InsertParticipant p => p.start_block_num = n ∧ p.end_block_num = MAX_BLOCK_NUM
  | .InsertQuote q => q.start_block_num = n ∧ q.end_block_num = MAX_BLOCK_NUM
  | .InsertSettlement s => s.start_block_num = n ∧ s.end_block_num = MAX_BLOCK_NUM
  | .InsertReceipt r => r.start_block_num = n ∧ r.end_block_num = MAX_BLOCK_NUM

theorem dbtinv_execute_transaction (n : Int) (hn : n < MAX_BLOCK_NUM) (db : Db)
    (t : TransactionType) (hwf : wf_transaction n t) (hinv : DbTInv n db) :
    DbTInv n (execute_transaction db t) := by
  cases t with
  | InsertBond bond rs =>
      exact dbtinv_of_tables_eq
        (foldl_proj_eq Db.organizations insert_corp_dept_ratings (fun _ _ => rfl) rs
          (insert_bond db bond))
        (foldl_proj_eq Db.participants insert_corp_dept_ratings (fun _ _ => rfl) rs
          (insert_bond db bond))
        (foldl_proj_eq Db.authorizations insert_corp_dept_ratings (fun _ _ => rfl) rs
          (insert_bond db bond))
        hinv
  | InsertHolding h => exact dbtinv_of_tables_eq rfl rfl rfl hinv
  | UpdateHolding a c m => exact dbtinv_of_tables_eq rfl rfl rfl hinv
  | InsertOrder o => exact dbtinv_of_tables_eq rfl rfl rfl hinv
  | InsertQuote q => exact dbtinv_of_tables_eq rfl rfl rfl hinv
  | InsertSettlement st => exact dbtinv_of_tables_eq rfl rfl rfl hinv
  | InsertReceipt r => exact dbtinv_of_tables_eq rfl rfl rfl hinv
  | InsertParticipant p =>
      exact ⟨hinv.1, tinv_insert_participant n hn db p hwf.1 hwf.2 hinv.2.1, hinv.2.2⟩
  | InsertOrganization org auths =>
      refine ⟨?_, ?_, ?_⟩
      · show TInv orgKey n ((auths.foldl insert_authorization
          (insert_organization db org)).organizations)
        rw [foldl_proj_eq Db.organizations insert_authorization (fun _ _ => rfl) auths
          (insert_organization db org)]
        exact tinv_insert_organization n hn db org hwf.1 hwf.2.1 hinv.1
      · show TInv partKey n ((auths.foldl insert_authorization
          (insert_organization db org)).participants)
        rw [foldl_proj_eq Db.participants insert_authorization (fun _ _ => rfl) auths
          (insert_organization db org)]
        exact hinv.2.1
      · show TInv authKey n ((auths.foldl insert_authorization
          (insert_organization db org)).authorizations)
        exact tinv_foldl_insert_authorization n hn auths (insert_organization db org)
          hwf.2.2 hinv.2.2

theorem dbtinv_foldl (n : Int) (hn : n < MAX_BLOCK_NUM) :
    ∀ (ts : List TransactionType) (db : Db),
      (∀ t ∈ ts, wf_transaction n t) → DbTInv n db →
      DbTInv n (ts.foldl execute_transaction db) := by
  intro ts
  induction ts with
  | nil => intro db _ h; exact h
  | cons t rest ih =>
      intro db hwf h
      rw [List.foldl_cons]
      exact ih (execute_transaction db t) (fun x hx => hwf x (List.mem_cons_of_mem t hx))
        (dbtinv_execute_transaction n hn db t (hwf t (List.mem_cons_self t rest)) h)

def Bounded (db : Db) (n : Int) : Prop := ∀ blk ∈ db.blocks, blk.block_num ≤ n

def DbOk (db : Db) : Prop := ∀ n : Int, Bounded db n → DbTInv n db

def blocksMax (l : List Block) (a : Int) : Int :=
  l.foldl (fun acc blk => max acc blk.block_num) a

theorem le_blocksMax_init : ∀ (l : List Block) (a : Int), a ≤ blocksMax l a := by
  intro l
  induction l with
  | nil => intro a; exact le_refl a
  | cons blk t ih =>
      intro a
      exact le_trans (le_max_left a blk.block_num) (ih (max a blk.block_num))

theorem mem_le_blocksMax : ∀ (l : List Block) (a : Int) (blk : Block), blk ∈ l →
    blk.block_num ≤ blocksMax l a := by
  intro l
  induction l with
  | nil => intro a blk h; exact absurd h (List.not_mem_nil blk)
  | cons hd t ih =>
      intro a blk h
      rcases List.mem_cons.mp h with rfl | hmem
      · exact le_trans (le_max_right a blk.block_num) (le_blocksMax_init t _)
      · exact ih _ blk hmem

/-- Admission conditions for one call to execute_transactions_in_block: its
operations are stamped with its height, the height is below the sentinel, and
a height not yet recorded is above every recorded height (blocks arrive in
chain order; only duplicate and fork redelivery revisit a recorded height). -/
def wf_block_step (db : Db) (ts : List TransactionType) (b : Block) : Prop :=
  (∀ t ∈ ts, wf_transaction b.block_num t) ∧ b.block_num < MAX_BLOCK_NUM ∧
  (get_block_if_exists db b.block_num = none → ∀ blk ∈ db.blocks, blk.block_num < b.block_num)

/-- Store states reachable from the empty store by admissible block
applications. -/
inductive Reachable : Db → Prop
  | base : Reachable emptyDb
  | step (db : Db) (ts : List TransactionType) (b : Block) :
      Reachable db → wf_block_step db ts b →
      Reachable (execute_transactions_in_block db ts b)

theorem reachable_dbok (db : Db) (h : Reachable db) : DbOk db := by
  induction h with
  | base => intro n _; exact ⟨tinv_nil _ _, tinv_nil _ _, tinv_nil _ _⟩
  | step db ts b hreach hwf ih =>
      intro n hbound
      obtain ⟨hwts, hblt, hadm⟩ := hwf
      cases hfind : get_block_if_exists db b.block_num with
      | none =>
          rw [execute_new db ts b hfind] at hbound ⊢
          have hbn : b.block_num ≤ n := hbound b
            (List.mem_append_right _ (List.mem_singleton.mpr rfl))
          have hdb : DbTInv (b.block_num - 1) db := ih (b.block_num - 1)
            (fun blk hblk => by have := hadm hfind blk hblk; omega)
          have hfold : DbTInv b.block_num (ts.foldl execute_transaction db) :=
            dbtinv_foldl b.block_num hblt ts db hwts (dbtinv_mono (by omega) hdb)
          exact dbtinv_mono hbn (dbtinv_of_tables_eq rfl rfl rfl hfold)
      | some b' =>
          by_cases hid : b'.block_id = b.block_id
          · rw [execute_duplicate db ts b b' hfind hid] at hbound ⊢
            exact ih n hbound
          · rw [execute_fork db ts b b' hfind hid] at hbound ⊢
            have hbn : b.block_num ≤ n := hbound b
              (List.mem_append_right _ (List.mem_singleton.mpr rfl))
            have hdb : DbTInv (blocksMax db.blocks 0) db :=
              ih (blocksMax db.blocks 0)
                (fun blk hblk => mem_le_blocksMax db.blocks 0 blk hblk)
            have hdrop : DbTInv b.block_num (drop_fork db b.block_num) :=
              ⟨tinv_drop orgKey (fun r v => rfl) b.block_num hblt db.organizations
                  hdb.1.no_overlap,
                tinv_drop partKey (fun r v => rfl) b.block_num hblt db.participants
                  hdb.2.1.no_overlap,
                tinv_drop authKey (fun r v => rfl) b.block_num hblt db.authorizations
                  hdb.2.2.no_overlap⟩
            have hfold : DbTInv b.block_num
                (ts.foldl execute_transaction (drop_fork db b.block_num)) :=
              dbtinv_foldl b.block_num hblt ts _ hwts hdrop
            exact dbtinv_mono hbn (dbtinv_of_tables_eq rfl rfl rfl hfold)

/-- Claim C1, amended: from the empty store, after any sequence of admissible
block applications (operations stamped with the block's height, heights below
the sentinel, unrecorded heights arriving in increasing order), the
organization, participant and authorization tables have at most one open row
per natural key and no two rows of one key with overlapping validity ranges.
The other seven versioned tables do not satisfy this (their inserts never
close the open row — see the counterexample). -/
theorem C1_amended_nonoverlap_invariant (db : Db) (h : Reachable db) :
    db.organizations.Pairwise (keyNoTwoOpen orgKey) ∧
    db.organizations.Pairwise (keyNoOverlap orgKey) ∧
    db.participants.Pairwise (keyNoTwoOpen partKey) ∧
    db.participants.Pairwise (keyNoOverlap partKey) ∧
    db.authorizations.Pairwise (keyNoTwoOpen authKey) ∧
    db.authorizations.Pairwise (keyNoOverlap authKey) := by
  have hinv := reachable_dbok db h (blocksMax db.blocks 0)
    (fun blk hblk => mem_le_blocksMax db.blocks 0 blk hblk)
  exact ⟨hinv.1.two_open, hinv.1.no_overlap, hinv.2.1.two_open, hinv.2.1.no_overlap,
    hinv.2.2.two_open, hinv.2.2.no_overlap⟩

def c1db : Db :=
  execute_transactions_in_block emptyDb [.InsertOrganization wOrg []] ⟨1, some "a"⟩

theorem C1_witness :
    c1db.organizations.Pairwise (keyNoTwoOpen orgKey) ∧
    c1db.organizations.Pairwise (keyNoOverlap orgKey) ∧
    c1db.participants.Pairwise (keyNoTwoOpen partKey) ∧
    c1db.participants.Pairwise (keyNoOverlap partKey) ∧
    c1db.authorizations.Pairwise (keyNoTwoOpen authKey) ∧
    c1db.authorizations.Pairwise (keyNoOverlap authKey) :=
  C1_amended_nonoverlap_invariant c1db
    (Reachable.step emptyDb [.InsertOrganization wOrg []] ⟨1, some "a"⟩ Reachable.base
      ⟨fun t ht => by
          rw [List.mem_singleton.mp ht]
          exact ⟨rfl, rfl, fun a ha => absurd ha (List.not_mem_nil a)⟩,
        by decide,
        fun _ blk hblk => absurd hblk (List.not_mem_nil blk)⟩)


end SawtoothBond
